import Mathlib

/-!
Verification development for the mcp-ios-simulator-server instruction
pipeline and command-composition engine.

The definitions below are a shallow embedding of the TypeScript sources:

* src/parser/commands/*.ts        (command catalog, pattern matching)
* src/parser/NLParser.ts          (validation and normalization)
* src/adapters/ParserToOrchestrator.ts
* src/adapters/OrchestratorToIDB.ts
* src/orchestrator/MCPOrchestrator.ts

JavaScript runtime values are modelled by the inductive type Value,
asynchronous fallible functions by Except String (the error being the
thrown message of an Error), and the external IIDBManager backend by an
abstract record of state-transforming capability calls.
-/

set_option maxRecDepth 4000

/-- JavaScript runtime values as they flow through the pipeline:
strings, numbers (rationals; NaN kept apart), booleans, null,
undefined, arrays and plain objects (insertion-ordered key/value lists). -/
inductive Value where
  | vStr : String → Value
  | vNum : Rat → Value
  | vNaN : Value
  | vBool : Bool → Value
  | vNull : Value
  | vUndefined : Value
  | vList : List Value → Value
  | vObj : List (String × Value) → Value

/-- Rational with numerator n and denominator 1 (no normalization needed). -/
def ratZ (n : Int) : Rat := Rat.mk' n 1 (by decide) (Nat.coprime_one_right _)

/-- Rational from a natural number. -/
def ratN (n : Nat) : Rat := ratZ (Int.ofNat n)

/-- JavaScript truthiness: empty string, 0, NaN, false, null and undefined
are falsy; arrays and objects are always truthy. -/
def jsTruthy : Value → Bool
  | .vStr s => s ≠ ""
  | .vNum q => q ≠ 0
  | .vNaN => false
  | .vBool b => b
  | .vNull => false
  | .vUndefined => false
  | .vList _ => true
  | .vObj _ => true

/-- The JavaScript a || b operator on runtime values. -/
def jsOrV (a b : Value) : Value := if jsTruthy a then a else b

/-- The JavaScript a || b operator for a string with a default
(an empty string is falsy). -/
def jsOrStr (s d : String) : String := if s = "" then d else s

/-- The JavaScript pattern o?.x || d on an optional string. -/
def jsOrSOpt (o : Option String) (d : String) : String :=
  match o with
  | some s => jsOrStr s d
  | none => d

/-- Whitespace recognized by trimming and by the regex class backslash-s. -/
def isWsp (c : Char) : Bool :=
  c = ' ' ∨ c = '\t' ∨ c = '\n' ∨ c = '\r' ∨ c = '\x0b' ∨ c = '\x0c'

/-- JavaScript String.prototype.trim (over the whitespace of isWsp). -/
def strTrim (s : String) : String :=
  String.mk (((s.toList.dropWhile isWsp).reverse.dropWhile isWsp).reverse)

/-- JavaScript String.prototype.toLowerCase on the ASCII range. -/
def strLower (s : String) : String :=
  String.mk (s.toList.map Char.toLower)

/-- JavaScript String.prototype.toUpperCase on the ASCII range. -/
def strUpper (s : String) : String :=
  String.mk (s.toList.map Char.toUpper)

/-- Digit list to natural number, most significant first. -/
def digitsToNat (cs : List Char) : Nat :=
  cs.foldl (fun acc c => acc * 10 + (c.toNat - '0'.toNat)) 0

/-- JavaScript Number(string) on the decimal forms occurring in this
codebase: optional surrounding whitespace, empty or whitespace-only
strings denote 0, an optional sign, then digits with an optional single
decimal point (at least one digit overall). Exotic numeric syntax (hex,
exponent, Infinity) is not produced by the catalog and is treated as NaN
(none). -/
def strToNum? (s : String) : Option Rat :=
  let cs := ((s.toList.dropWhile isWsp).reverse.dropWhile isWsp).reverse
  if cs.isEmpty then some 0
  else
    let (neg, cs1) :=
      match cs with
      | '-' :: t => (true, t)
      | '+' :: t => (false, t)
      | _ => (false, cs)
    let intPart := cs1.takeWhile (fun c => c.isDigit)
    let rest := cs1.dropWhile (fun c => c.isDigit)
    let signed : Rat → Rat := fun q => if neg then -q else q
    match rest with
    | [] => if intPart.isEmpty then none else some (signed (ratN (digitsToNat intPart)))
    | '.' :: frac =>
        if frac.all (fun c => c.isDigit) ∧ ¬(intPart.isEmpty ∧ frac.isEmpty) then
          some (signed (ratN (digitsToNat (intPart ++ frac)) / ratN (10 ^ frac.length)))
        else none
    | _ => none

/-- JavaScript parseInt(s, 10): trim, optional sign, then the longest
leading digit prefix; none when no digit is found (NaN). -/
def parseInt10 (s : String) : Option Int :=
  let cs := s.toList.dropWhile isWsp
  let (neg, cs1) :=
    match cs with
    | '-' :: t => (true, t)
    | '+' :: t => (false, t)
    | _ => (false, cs)
  let ds := cs1.takeWhile (fun c => c.isDigit)
  if ds.isEmpty then none
  else some (if neg then -(Int.ofNat (digitsToNat ds)) else Int.ofNat (digitsToNat ds))

/-- JavaScript parseFloat(s): trim, optional sign, longest leading
decimal prefix (digits with an optional single point); none when no
leading number exists. -/
def parseFloatJS (s : String) : Option Rat :=
  let cs := s.toList.dropWhile isWsp
  let (neg, cs1) :=
    match cs with
    | '-' :: t => (true, t)
    | '+' :: t => (false, t)
    | _ => (false, cs)
  let intPart := cs1.takeWhile (fun c => c.isDigit)
  let rest := cs1.dropWhile (fun c => c.isDigit)
  let frac :=
    match rest with
    | '.' :: t => t.takeWhile (fun c => c.isDigit)
    | _ => []
  if intPart.isEmpty ∧ frac.isEmpty then none
  else
    let q := ratN (digitsToNat (intPart ++ frac)) / ratN (10 ^ frac.length)
    some (if neg then -q else q)

/-- Value of parseInt as stored by the catalog extractors: a number, or
NaN when no digits were found. -/
def parseIntV (s : String) : Value :=
  match parseInt10 s with
  | some n => .vNum (ratZ n)
  | none => .vNaN

/-- Value of parseFloat as stored by the set-location extractors. -/
def parseFloatV (s : String) : Value :=
  match parseFloatJS s with
  | some q => .vNum q
  | none => .vNaN

/-- Split on runs of whitespace as JavaScript split with a regex of one
or more whitespace characters does on trimmed input. -/
def splitWs (s : String) : List String :=
  let rec go (cs : List Char) (cur : List Char) (acc : List String) : List String :=
    match cs with
    | [] => if cur.isEmpty then acc.reverse else (String.mk cur.reverse :: acc).reverse
    | c :: t =>
        if isWsp c then
          if cur.isEmpty then go t [] acc else go t [] (String.mk cur.reverse :: acc)
        else go t (c :: cur) acc
  go s.toList [] []

/-!
A small backtracking engine for the JavaScript regular-expression subset
used by the command catalog (all catalog patterns carry the i flag and
use only: literals, the classes backslash-s, backslash-d, backslash-w,
bracket classes with ranges and negation, the dot, capturing and named
groups, alternation, and the greedy quantifiers question mark, plus and
star). Patterns are kept as their source strings and compiled by
parseRegex; matching is unanchored and leftmost-first as String.match.
-/

/-- One item of a bracket character class. -/
inductive ClsItem where
  | one : Char → ClsItem
  | range : Char → Char → ClsItem
  | dig : ClsItem
  | sp : ClsItem
  | wd : ClsItem

/-- Abstract syntax of the regular-expression subset. -/
inductive Regex where
  | emp : Regex
  | ch : Char → Regex
  | cls : Bool → List ClsItem → Regex
  | dot : Regex
  | cat : Regex → Regex → Regex
  | alt : Regex → Regex → Regex
  | star : Regex → Regex
  | group : Option String → Regex → Regex

/-- Case-insensitive character comparison (the i flag). -/
def charCI (a b : Char) : Bool := a.toLower = b.toLower

/-- Word characters for the regex class backslash-w. -/
def isWordChar (c : Char) : Bool := c.isDigit ∨ c.isAlpha ∨ c = '_'

/-- Does a character satisfy one class item (case-insensitively)? -/
def itemMatch (c : Char) : ClsItem → Bool
  | .one d => charCI c d
  | .range a b => (a ≤ c ∧ c ≤ b) ∨ (a ≤ c.toLower ∧ c.toLower ≤ b) ∨ (a ≤ c.toUpper ∧ c.toUpper ≤ b)
  | .dig => c.isDigit
  | .sp => isWsp c
  | .wd => isWordChar c

/-- Character-class membership, honoring negation. -/
def clsMatch (neg : Bool) (items : List ClsItem) (c : Char) : Bool :=
  let m := items.any (itemMatch c)
  if neg then !m else m

/-- Named-capture store of one match. -/
abbrev Groups := List (String × String)

/-- Record a named capture (a later write to the same name wins). -/
def setGroup (g : Groups) (n v : String) : Groups :=
  if g.any (fun kv => kv.1 = n) then
    g.map (fun kv => if kv.1 = n then (kv.1, v) else kv)
  else g ++ [(n, v)]

/-- Look a named capture up. -/
def getGroup (g : Groups) (n : String) : Option String :=
  (g.find? (fun kv => kv.1 = n)).map (fun kv => kv.2)

/-- The characters a partial match consumed between suffix s and its
later suffix s1. -/
def consumedStr (s s1 : List Char) : String :=
  String.mk (s.take (s.length - s1.length))

/-- Structural size of a regex, used only to compute an ample fuel. -/
def rsize : Regex → Nat
  | .emp => 1
  | .ch _ => 1
  | .cls _ _ => 1
  | .dot => 1
  | .cat a b => rsize a + rsize b + 1
  | .alt a b => rsize a + rsize b + 1
  | .star r => rsize r + 1
  | .group _ r => rsize r + 1

/-- Fueled continuation-passing matcher. Greedy quantifiers try the
longer match first, alternation prefers its left branch, and a star
iteration that consumes nothing ends the repetition, as in JavaScript.
The fuel only bounds the recursion depth; runMatch supplies enough of it
for every pattern of the catalog. -/
def mrun : Nat → Regex → List Char → Groups → (List Char → Groups → Option Groups) → Option Groups
  | 0, _, _, _, _ => none
  | Nat.succ f, r, s, g, k =>
    match r with
    | .emp => k s g
    | .ch c =>
        match s with
        | [] => none
        | a :: s1 => if charCI a c then k s1 g else none
    | .cls n its =>
        match s with
        | [] => none
        | a :: s1 => if clsMatch n its a then k s1 g else none
    | .dot =>
        match s with
        | [] => none
        | a :: s1 => if a = '\n' ∨ a = '\r' then none else k s1 g
    | .cat r1 r2 => mrun f r1 s g (fun s1 g1 => mrun f r2 s1 g1 k)
    | .alt r1 r2 =>
        match mrun f r1 s g k with
        | some out => some out
        | none => mrun f r2 s g k
    | .group n r1 =>
        mrun f r1 s g (fun s1 g1 =>
          k s1 (match n with
                | some nm => setGroup g1 nm (consumedStr s s1)
                | none => g1))
    | .star r1 =>
        match mrun f r1 s g (fun s1 g1 =>
          if s1.length < s.length then mrun f (.star r1) s1 g1 k else k s1 g1) with
        | some out => some out
        | none => k s g

/-- Try a full match of r at the start of s. -/
def runMatch (r : Regex) (s : List Char) : Option Groups :=
  mrun ((rsize r + 2) * (s.length + 2) + 9) r s [] (fun _ g => some g)

/-- Unanchored leftmost search, as String.match: try each start
position from the left and return the first successful match. -/
def rsearch (r : Regex) : List Char → Option Groups
  | [] => runMatch r []
  | c :: t =>
      match runMatch r (c :: t) with
      | some g => some g
      | none => rsearch r t

/-- Optional-quantifier desugaring (greedy: try the atom first). -/
def Regex.opt (r : Regex) : Regex := .alt r .emp

/-- Plus-quantifier desugaring. -/
def Regex.plus (r : Regex) : Regex := .cat r (.star r)

/-- Parse one class item list, up to the closing bracket. -/
def pClassItems : Nat → List Char → Option (List ClsItem × List Char)
  | 0, _ => none
  | Nat.succ f, cs =>
    match cs with
    | [] => none
    | ']' :: rest => some ([], rest)
    | '\\' :: e :: rest =>
        let item := match e with
          | 's' => ClsItem.sp
          | 'd' => ClsItem.dig
          | 'w' => ClsItem.wd
          | c => ClsItem.one c
        (pClassItems f rest).map (fun p => (item :: p.1, p.2))
    | a :: '-' :: b :: rest =>
        if b = ']' then
          (pClassItems f ('-' :: b :: rest)).map (fun p => (ClsItem.one a :: p.1, p.2))
        else
          (pClassItems f rest).map (fun p => (ClsItem.range a b :: p.1, p.2))
    | a :: rest =>
        (pClassItems f rest).map (fun p => (ClsItem.one a :: p.1, p.2))

/-- Translate an escape outside a class. -/
def escRegex (c : Char) : Regex :=
  match c with
  | 's' => .cls false [.sp]
  | 'd' => .cls false [.dig]
  | 'w' => .cls false [.wd]
  | _ => .ch c

mutual

/-- Parse an alternation (the lowest-precedence level). -/
def pAlt : Nat → List Char → Option (Regex × List Char)
  | 0, _ => none
  | Nat.succ f, cs =>
    match pSeq f cs with
    | none => none
    | some (r, rest) =>
      match rest with
      | '|' :: rest1 =>
          match pAlt f rest1 with
          | none => none
          | some (r2, rest2) => some (.alt r r2, rest2)
      | _ => some (r, rest)

/-- Parse a concatenation of pieces. -/
def pSeq : Nat → List Char → Option (Regex × List Char)
  | 0, _ => none
  | Nat.succ f, cs =>
    match cs with
    | [] => some (.emp, [])
    | '|' :: _ => some (.emp, cs)
    | ')' :: _ => some (.emp, cs)
    | _ =>
      match pPiece f cs with
      | none => none
      | some (r, rest) =>
        match pSeq f rest with
        | none => none
        | some (r2, rest2) => some (.cat r r2, rest2)

/-- Parse one atom with an optional quantifier. -/
def pPiece : Nat → List Char → Option (Regex × List Char)
  | 0, _ => none
  | Nat.succ f, cs =>
    match pAtom f cs with
    | none => none
    | some (r, rest) =>
      match rest with
      | '?' :: rest1 => some (r.opt, rest1)
      | '+' :: rest1 => some (r.plus, rest1)
      | '*' :: rest1 => some (.star r, rest1)
      | _ => some (r, rest)

/-- Parse one atom: a group, a class, an escape, the dot or a literal. -/
def pAtom : Nat → List Char → Option (Regex × List Char)
  | 0, _ => none
  | Nat.succ f, cs =>
    match cs with
    | [] => none
    | '(' :: '?' :: '<' :: rest =>
        let nameCs := rest.takeWhile (fun c => c ≠ '>')
        match rest.dropWhile (fun c => c ≠ '>') with
        | '>' :: rest1 =>
            match pAlt f rest1 with
            | none => none
            | some (r, ')' :: rest2) => some (.group (some (String.mk nameCs)) r, rest2)
            | some _ => none
        | _ => none
    | '(' :: rest =>
        match pAlt f rest with
        | none => none
        | some (r, ')' :: rest2) => some (.group none r, rest2)
        | some _ => none
    | '[' :: '^' :: rest =>
        match pClassItems f.succ rest with
        | none => none
        | some (items, rest1) => some (.cls true items, rest1)
    | '[' :: rest =>
        match pClassItems f.succ rest with
        | none => none
        | some (items, rest1) => some (.cls false items, rest1)
    | '\\' :: e :: rest => some (escRegex e, rest)
    | '.' :: rest => some (.dot, rest)
    | c :: rest => some (.ch c, rest)

end

/-- Compile a pattern source string (the text between the slashes of the
TypeScript literal); none when the string is not of the supported
subset or is not consumed entirely. -/
def parseRegex (pat : String) : Option Regex :=
  match pAlt (2 * pat.length + 10) pat.toList with
  | some (r, []) => some r
  | _ => none

/-- Match a pattern source string against a text, as text.match with
the i flag: none when there is no match, otherwise the named captures. -/
def regexMatch (pat : String) (text : String) : Option Groups :=
  match parseRegex pat with
  | none => none
  | some r => rsearch r text.toList

example : (regexMatch "tap(\\s+at)?\\s+(?<x>\\d+)\\s*,\\s*(?<y>\\d+)" "tap at 100, 200").isSome = true := by decide

example : regexMatch "tap(\\s+at)?\\s+(?<x>\\d+)\\s*,\\s*(?<y>\\d+)" "tap en 100, 200" = none := by decide

example : (regexMatch "tap(\\s+at)?\\s+(?<x>\\d+)\\s*,\\s*(?<y>\\d+)" "tap 150, 300").bind (fun g => getGroup g "x") = some "150" := by decide

/-!
Command catalog: src/parser/commands. Each pattern string below is the
source text of the corresponding TypeScript regular-expression literal
(between the slashes; all carry the i flag, which regexMatch applies).
-/

/-- Result of a successful catalog match (src/parser/interfaces/IParser.ts). -/
structure ParseResult where
  command : String
  parameters : List (String × Value)
  confidence : Rat
  originalText : String

/-- Confidence constant every successful match carries
(BaseCommandDefinition.parseCommand). -/
def matchConfidence : Rat := ratN 9 / ratN 10

/-- One catalog entry (CommandDefinition in BaseCommandDefinition.ts);
parameter extractors operate on the named captures of a successful
match and may return none (the JavaScript undefined, omitting the
parameter). -/
structure CommandDefinition where
  command : String
  patterns : List String
  description : String
  requiredParameters : List String
  optionalParameters : List String
  examples : List String
  parameterExtractors : List (String × (Groups → Option Value))

/-- Extractor of the shape: match.groups?.name?.trim(). -/
def extTrim (name : String) : Groups → Option Value :=
  fun g => (getGroup g name).map (fun s => .vStr (strTrim s))

/-- Extractor of the shape: parseInt(match.groups?.name || zero, 10). -/
def extInt (name : String) : Groups → Option Value :=
  fun g => some (parseIntV (jsOrSOpt (getGroup g name) "0"))

/-- Extractor of the shape: parseFloat(match.groups?.name || zero). -/
def extFloat (name : String) : Groups → Option Value :=
  fun g => some (parseFloatV (jsOrSOpt (getGroup g name) "0"))

/-- Extractor of the shape:
match.groups?.name ? parseInt(match.groups.name, 10) : undefined. -/
def extIntOpt (name : String) : Groups → Option Value :=
  fun g =>
    match getGroup g name with
    | some s => if s = "" then none else some (parseIntV s)
    | none => none

/-- Extractor of the shape: match.groups?.name?.trim().toUpperCase(). -/
def extUpper (name : String) : Groups → Option Value :=
  fun g => (getGroup g name).map (fun s => .vStr (strUpper (strTrim s)))

/-- Extractor of the shape:
match.groups?.name?.trim().split(whitespace).map(parseInt). -/
def extIntList (name : String) : Groups → Option Value :=
  fun g => (getGroup g name).map (fun s => .vList ((splitWs (strTrim s)).map parseIntV))

/-- Extractor of the shape: match.groups?.name?.trim().split(whitespace). -/
def extStrList (name : String) : Groups → Option Value :=
  fun g => (getGroup g name).map (fun s => .vList ((splitWs (strTrim s)).map .vStr))

/-- SimulatorCommands.ts definitions. -/
def simulatorCommands : List CommandDefinition := [
  { command := "create session",
    patterns := [
      "crear\\s+(una\\s+)?sesión(\\s+de\\s+simulador)?(\\s+con\\s+(?<deviceName>[^,]+))?",
      "iniciar\\s+(un\\s+)?simulador(\\s+(?<deviceName>[^,]+))?",
      "create\\s+(a\\s+)?session(\\s+with\\s+(?<deviceName>[^,]+))?",
      "start\\s+(a\\s+)?simulator(\\s+(?<deviceName>[^,]+))?",
      "launch\\s+(a\\s+)?simulator(\\s+(?<deviceName>[^,]+))?"],
    description := "Creates a new simulator session",
    requiredParameters := [],
    optionalParameters := ["deviceName", "platformVersion", "autoboot"],
    examples := ["crear sesión", "crear una sesión de simulador", "iniciar simulador iPhone 12",
      "create session with iPhone 12", "start simulator iPhone 13"],
    parameterExtractors := [("deviceName", extTrim "deviceName")] },
  { command := "end session",
    patterns := [
      "terminar\\s+(la\\s+)?sesión",
      "cerrar\\s+(el\\s+)?simulador",
      "end\\s+(the\\s+)?session",
      "close\\s+(the\\s+)?simulator",
      "terminate\\s+(the\\s+)?session"],
    description := "Ends the current simulator session",
    requiredParameters := [],
    optionalParameters := ["sessionId"],
    examples := ["terminar sesión", "cerrar simulador", "end session", "close simulator",
      "terminate session"],
    parameterExtractors := [] },
  { command := "list simulators",
    patterns := [
      "listar\\s+(los\\s+)?simuladores",
      "mostrar\\s+(los\\s+)?simuladores",
      "qué\\s+simuladores\\s+(hay|están\\s+disponibles)",
      "list\\s+(all\\s+)?simulators",
      "show\\s+(all\\s+)?simulators",
      "display\\s+(all\\s+)?simulators"],
    description := "Lists available simulators",
    requiredParameters := [],
    optionalParameters := [],
    examples := ["listar simuladores", "mostrar simuladores", "qué simuladores hay",
      "list simulators", "show all simulators", "display simulators"],
    parameterExtractors := [] },
  { command := "list booted simulators",
    patterns := [
      "listar\\s+(los\\s+)?simuladores\\s+arrancados",
      "mostrar\\s+(los\\s+)?simuladores\\s+arrancados",
      "qué\\s+simuladores\\s+están\\s+arrancados",
      "list\\s+(all\\s+)?booted\\s+simulators",
      "show\\s+running\\s+simulators",
      "display\\s+active\\s+simulators"],
    description := "Lists booted simulators",
    requiredParameters := [],
    optionalParameters := [],
    examples := ["listar simuladores arrancados", "mostrar simuladores arrancados",
      "qué simuladores están arrancados", "list booted simulators", "show running simulators",
      "display active simulators"],
    parameterExtractors := [] },
  { command := "boot simulator",
    patterns := [
      "arrancar\\s+(el\\s+)?simulador\\s+(?<udid>[a-zA-Z0-9-]+)",
      "bootear\\s+(el\\s+)?simulador\\s+(?<udid>[a-zA-Z0-9-]+)",
      "boot\\s+(the\\s+)?simulator\\s+(?<udid>[a-zA-Z0-9-]+)",
      "start\\s+(the\\s+)?simulator\\s+(?<udid>[a-zA-Z0-9-]+)"],
    description := "Boots a simulator by its UDID",
    requiredParameters := ["udid"],
    optionalParameters := [],
    examples := ["arrancar simulador 5A321B8F-4D85-4267-9F79-2F5C91D142C2",
      "bootear simulador 5A321B8F-4D85-4267-9F79-2F5C91D142C2",
      "boot simulator 5A321B8F-4D85-4267-9F79-2F5C91D142C2",
      "start simulator 5A321B8F-4D85-4267-9F79-2F5C91D142C2"],
    parameterExtractors := [("udid", extTrim "udid")] },
  { command := "shutdown simulator",
    patterns := [
      "apagar\\s+(el\\s+)?simulador\\s+(?<udid>[a-zA-Z0-9-]+)",
      "shutdown\\s+(el\\s+)?simulador\\s+(?<udid>[a-zA-Z0-9-]+)",
      "shutdown\\s+(the\\s+)?simulator\\s+(?<udid>[a-zA-Z0-9-]+)",
      "turn\\s+off\\s+(the\\s+)?simulator\\s+(?<udid>[a-zA-Z0-9-]+)"],
    description := "Shuts down a simulator by its UDID",
    requiredParameters := ["udid"],
    optionalParameters := [],
    examples := ["apagar simulador 5A321B8F-4D85-4267-9F79-2F5C91D142C2",
      "shutdown simulador 5A321B8F-4D85-4267-9F79-2F5C91D142C2",
      "shutdown simulator 5A321B8F-4D85-4267-9F79-2F5C91D142C2",
      "turn off simulator 5A321B8F-4D85-4267-9F79-2F5C91D142C2"],
    parameterExtractors := [("udid", extTrim "udid")] },
  { command := "focus simulator",
    patterns := [
      "enfocar\\s+(el\\s+)?simulador",
      "focus\\s+(el\\s+)?simulador",
      "traer\\s+(el\\s+)?simulador\\s+al\\s+frente",
      "focus\\s+(the\\s+)?simulator",
      "bring\\s+(the\\s+)?simulator\\s+to\\s+front"],
    description := "Focuses the simulator window",
    requiredParameters := [],
    optionalParameters := ["sessionId"],
    examples := ["enfocar simulador", "focus simulador", "traer simulador al frente",
      "focus simulator", "bring simulator to front"],
    parameterExtractors := [] }]

/-- AppCommands.ts definitions. -/
def appCommands : List CommandDefinition := [
  { command := "install app",
    patterns := [
      "instalar\\s+(la\\s+)?app(\\s+en\\s+la\\s+ruta)?\\s+(?<appPath>[^\\s,]+)",
      "instalar\\s+(la\\s+)?aplicación(\\s+en\\s+la\\s+ruta)?\\s+(?<appPath>[^\\s,]+)",
      "install\\s+(the\\s+)?app(\\s+at)?\\s+(?<appPath>[^\\s,]+)",
      "install\\s+(the\\s+)?application(\\s+at)?\\s+(?<appPath>[^\\s,]+)"],
    description := "Installs an application on the simulator",
    requiredParameters := ["appPath"],
    optionalParameters := ["sessionId"],
    examples := ["instalar app /ruta/a/la/app.ipa", "instalar la aplicación /ruta/a/la/app.app",
      "install app /path/to/app.ipa", "install application /path/to/app.app"],
    parameterExtractors := [("appPath", extTrim "appPath")] },
  { command := "launch app",
    patterns := [
      "lanzar\\s+(la\\s+)?app\\s+(?<bundleId>[^\\s,]+)",
      "abrir\\s+(la\\s+)?app\\s+(?<bundleId>[^\\s,]+)",
      "iniciar\\s+(la\\s+)?app\\s+(?<bundleId>[^\\s,]+)",
      "launch\\s+(the\\s+)?app\\s+(?<bundleId>[^\\s,]+)",
      "open\\s+(the\\s+)?app\\s+(?<bundleId>[^\\s,]+)",
      "start\\s+(the\\s+)?app\\s+(?<bundleId>[^\\s,]+)"],
    description := "Launches an application on the simulator",
    requiredParameters := ["bundleId"],
    optionalParameters := ["sessionId"],
    examples := ["lanzar app com.example.app", "abrir app com.apple.mobilesafari",
      "launch app com.example.app", "open app com.apple.mobilesafari"],
    parameterExtractors := [("bundleId", extTrim "bundleId")] },
  { command := "terminate app",
    patterns := [
      "terminar\\s+(la\\s+)?app\\s+(?<bundleId>[^\\s,]+)",
      "cerrar\\s+(la\\s+)?app\\s+(?<bundleId>[^\\s,]+)",
      "matar\\s+(la\\s+)?app\\s+(?<bundleId>[^\\s,]+)",
      "terminate\\s+(the\\s+)?app\\s+(?<bundleId>[^\\s,]+)",
      "close\\s+(the\\s+)?app\\s+(?<bundleId>[^\\s,]+)",
      "kill\\s+(the\\s+)?app\\s+(?<bundleId>[^\\s,]+)"],
    description := "Terminates a running application",
    requiredParameters := ["bundleId"],
    optionalParameters := ["sessionId"],
    examples := ["terminar app com.example.app", "cerrar app com.apple.mobilesafari",
      "matar app com.example.app", "terminate app com.example.app",
      "close app com.apple.mobilesafari", "kill app com.example.app"],
    parameterExtractors := [("bundleId", extTrim "bundleId")] },
  { command := "uninstall app",
    patterns := [
      "desinstalar\\s+(la\\s+)?app\\s+(?<bundleId>[^\\s,]+)",
      "eliminar\\s+(la\\s+)?app\\s+(?<bundleId>[^\\s,]+)",
      "borrar\\s+(la\\s+)?app\\s+(?<bundleId>[^\\s,]+)",
      "uninstall\\s+(the\\s+)?app\\s+(?<bundleId>[^\\s,]+)",
      "remove\\s+(the\\s+)?app\\s+(?<bundleId>[^\\s,]+)",
      "delete\\s+(the\\s+)?app\\s+(?<bundleId>[^\\s,]+)"],
    description := "Uninstalls an application",
    requiredParameters := ["bundleId"],
    optionalParameters := ["sessionId"],
    examples := ["desinstalar app com.example.app", "eliminar app com.apple.mobilesafari",
      "borrar app com.example.app", "uninstall app com.example.app",
      "remove app com.apple.mobilesafari", "delete app com.example.app"],
    parameterExtractors := [("bundleId", extTrim "bundleId")] },
  { command := "list apps",
    patterns := [
      "listar\\s+(las\\s+)?apps",
      "mostrar\\s+(las\\s+)?apps",
      "qué\\s+apps\\s+(hay|están\\s+instaladas)",
      "list\\s+(the\\s+)?apps",
      "show\\s+(the\\s+)?apps",
      "what\\s+apps\\s+(are\\s+there|are\\s+installed)"],
    description := "Lists installed applications",
    requiredParameters := [],
    optionalParameters := ["sessionId"],
    examples := ["listar apps", "mostrar apps", "qué apps hay", "list apps", "show apps",
      "what apps are installed"],
    parameterExtractors := [] }]

/-- UICommands.ts definitions. -/
def uiCommands : List CommandDefinition := [
  { command := "tap",
    patterns := [
      "tap(\\s+at)?\\s+(?<x>\\d+)\\s*,\\s*(?<y>\\d+)",
      "tocar(\\s+en)?\\s+(?<x>\\d+)\\s*,\\s*(?<y>\\d+)",
      "pulsar(\\s+en)?\\s+(?<x>\\d+)\\s*,\\s*(?<y>\\d+)"],
    description := "Performs a tap at the specified coordinates",
    requiredParameters := ["x", "y"],
    optionalParameters := ["sessionId", "duration"],
    examples := ["tap en 100, 200", "tocar 150, 300", "pulsar en 200, 400", "tap at 100, 200",
      "tap 150, 300"],
    parameterExtractors := [("x", extInt "x"), ("y", extInt "y")] },
  { command := "swipe",
    patterns := [
      "swipe\\s+from\\s+(?<startX>\\d+)\\s*,\\s*(?<startY>\\d+)\\s+to\\s+(?<endX>\\d+)\\s*,\\s*(?<endY>\\d+)(\\s+with\\s+duration\\s+(?<duration>\\d+))?",
      "deslizar\\s+desde\\s+(?<startX>\\d+)\\s*,\\s*(?<startY>\\d+)\\s+hasta\\s+(?<endX>\\d+)\\s*,\\s*(?<endY>\\d+)(\\s+con\\s+duración\\s+(?<duration>\\d+))?"],
    description := "Performs a swipe from one point to another",
    requiredParameters := ["startX", "startY", "endX", "endY"],
    optionalParameters := ["duration", "delta", "sessionId"],
    examples := ["swipe desde 100, 200 hasta 300, 400",
      "deslizar desde 150, 300 hasta 150, 100 con duración 500",
      "swipe from 100, 200 to 300, 400", "swipe from 150, 300 to 150, 100 with duration 500"],
    parameterExtractors := [("startX", extInt "startX"), ("startY", extInt "startY"),
      ("endX", extInt "endX"), ("endY", extInt "endY"), ("duration", extIntOpt "duration")] },
  { command := "press device button",
    patterns := [
      "presionar\\s+(el\\s+)?botón\\s+del\\s+dispositivo\\s+(?<button>APPLE_PAY|HOME|LOCK|SIDE_BUTTON|SIRI)",
      "pulsar\\s+(el\\s+)?botón\\s+del\\s+dispositivo\\s+(?<button>APPLE_PAY|HOME|LOCK|SIDE_BUTTON|SIRI)",
      "presionar\\s+(el\\s+)?botón\\s+físico\\s+(?<button>APPLE_PAY|HOME|LOCK|SIDE_BUTTON|SIRI)",
      "press\\s+(the\\s+)?device\\s+button\\s+(?<button>APPLE_PAY|HOME|LOCK|SIDE_BUTTON|SIRI)",
      "push\\s+(the\\s+)?device\\s+button\\s+(?<button>APPLE_PAY|HOME|LOCK|SIDE_BUTTON|SIRI)",
      "tap\\s+(the\\s+)?device\\s+button\\s+(?<button>APPLE_PAY|HOME|LOCK|SIDE_BUTTON|SIRI)"],
    description := "Presses a hardware device button",
    requiredParameters := ["button"],
    optionalParameters := ["duration", "sessionId"],
    examples := ["presionar botón del dispositivo HOME", "pulsar botón del dispositivo SIRI",
      "presionar botón físico HOME", "press device button HOME", "push device button SIRI",
      "tap device button LOCK"],
    parameterExtractors := [("button", extUpper "button")] },
  { command := "input text",
    patterns := [
      "introducir\\s+texto\\s+(?<text>.+)",
      "escribir\\s+texto\\s+(?<text>.+)",
      "input\\s+text\\s+(?<text>.+)",
      "type\\s+text\\s+(?<text>.+)",
      "enter\\s+text\\s+(?<text>.+)"],
    description := "Inputs text in the simulator",
    requiredParameters := ["text"],
    optionalParameters := ["sessionId"],
    examples := ["introducir texto Hola mundo", "escribir texto Prueba de texto",
      "input text Hello world", "type text Test message", "enter text Hello"],
    parameterExtractors := [("text", extTrim "text")] },
  { command := "press key",
    patterns := [
      "presionar\\s+(la\\s+)?tecla\\s+(?<keyCode>\\d+)",
      "pulsar\\s+(la\\s+)?tecla\\s+(?<keyCode>\\d+)",
      "press\\s+key\\s+(?<keyCode>\\d+)",
      "hit\\s+key\\s+(?<keyCode>\\d+)",
      "type\\s+key\\s+(?<keyCode>\\d+)"],
    description := "Presses a specific key by its code",
    requiredParameters := ["keyCode"],
    optionalParameters := ["duration", "sessionId"],
    examples := ["presionar tecla 4", "pulsar la tecla 65", "press key 4", "hit key 65",
      "type key 13"],
    parameterExtractors := [("keyCode", extInt "keyCode")] },
  { command := "press key sequence",
    patterns := [
      "presionar\\s+secuencia\\s+de\\s+teclas\\s+(?<keyCodes>[\\d\\s]+)",
      "pulsar\\s+secuencia\\s+de\\s+teclas\\s+(?<keyCodes>[\\d\\s]+)",
      "press\\s+key\\s+sequence\\s+(?<keyCodes>[\\d\\s]+)",
      "type\\s+key\\s+sequence\\s+(?<keyCodes>[\\d\\s]+)",
      "enter\\s+key\\s+sequence\\s+(?<keyCodes>[\\d\\s]+)"],
    description := "Presses a sequence of keys",
    requiredParameters := ["keyCodes"],
    optionalParameters := ["sessionId"],
    examples := ["presionar secuencia de teclas 4 5 6", "pulsar secuencia de teclas 65 66 67",
      "press key sequence 4 5 6", "type key sequence 65 66 67", "enter key sequence 13 14 15"],
    parameterExtractors := [("keyCodes", extIntList "keyCodes")] }]

/-- AccessibilityCommands.ts definitions. -/
def accessibilityCommands : List CommandDefinition := [
  { command := "describe elements",
    patterns := [
      "describir\\s+(todos\\s+los\\s+)?elementos",
      "describe\\s+all\\s+elements",
      "mostrar\\s+elementos\\s+de\\s+accesibilidad"],
    description := "Describes all accessibility elements on the screen",
    requiredParameters := [],
    optionalParameters := ["sessionId"],
    examples := ["describir todos los elementos", "describe all elements",
      "mostrar elementos de accesibilidad"],
    parameterExtractors := [] },
  { command := "describe point",
    patterns := [
      "describir\\s+punto\\s+(?<x>\\d+)\\s*,\\s*(?<y>\\d+)",
      "describe\\s+point\\s+(?<x>\\d+)\\s*,\\s*(?<y>\\d+)",
      "qué\\s+hay\\s+en\\s+(?<x>\\d+)\\s*,\\s*(?<y>\\d+)"],
    description := "Describes the accessibility element at a specific point",
    requiredParameters := ["x", "y"],
    optionalParameters := ["sessionId"],
    examples := ["describir punto 100, 200", "describe point 150, 300", "qué hay en 200, 400"],
    parameterExtractors := [("x", extInt "x"), ("y", extInt "y")] }]

/-- CaptureCommands.ts definitions. -/
def captureCommands : List CommandDefinition := [
  { command := "capture screen",
    patterns := [
      "capturar\\s+(la\\s+)?pantalla(\\s+en\\s+(?<outputPath>[^\\s,]+))?",
      "screenshot(\\s+en\\s+(?<outputPath>[^\\s,]+))?",
      "tomar\\s+(una\\s+)?captura(\\s+en\\s+(?<outputPath>[^\\s,]+))?",
      "capture\\s+(the\\s+)?screen(\\s+to\\s+(?<outputPath>[^\\s,]+))?",
      "take\\s+(a\\s+)?screenshot(\\s+to\\s+(?<outputPath>[^\\s,]+))?"],
    description := "Captures a screenshot of the simulator",
    requiredParameters := [],
    optionalParameters := ["outputPath", "sessionId"],
    examples := ["capturar pantalla", "screenshot en /ruta/captura.png", "tomar una captura",
      "capture screen", "take screenshot to /path/capture.png"],
    parameterExtractors := [("outputPath", extTrim "outputPath")] },
  { command := "record video",
    patterns := [
      "grabar\\s+video\\s+(?<outputPath>[^\\s,]+)",
      "record\\s+video\\s+(?<outputPath>[^\\s,]+)",
      "iniciar\\s+grabación\\s+de\\s+video\\s+(?<outputPath>[^\\s,]+)",
      "start\\s+recording\\s+video\\s+(?<outputPath>[^\\s,]+)",
      "begin\\s+video\\s+recording\\s+(?<outputPath>[^\\s,]+)"],
    description := "Starts video recording of the simulator",
    requiredParameters := ["outputPath"],
    optionalParameters := ["sessionId"],
    examples := ["grabar video /ruta/video.mp4", "record video /tmp/captura.mp4",
      "iniciar grabación de video /ruta/salida.mp4", "record video /path/video.mp4",
      "start recording video /path/output.mp4"],
    parameterExtractors := [("outputPath", extTrim "outputPath")] },
  { command := "stop recording",
    patterns := [
      "detener\\s+grabación(\\s+de\\s+video)?",
      "parar\\s+grabación(\\s+de\\s+video)?",
      "stop\\s+recording",
      "end\\s+recording",
      "stop\\s+video\\s+recording"],
    description := "Stops video recording of the simulator",
    requiredParameters := [],
    optionalParameters := ["recordingId", "sessionId"],
    examples := ["detener grabación", "parar grabación de video", "stop recording",
      "end recording", "stop video recording"],
    parameterExtractors := [] },
  { command := "get logs",
    patterns := [
      "obtener\\s+logs(\\s+de\\s+(?<bundleId>[^\\s,]+))?",
      "mostrar\\s+logs(\\s+de\\s+(?<bundleId>[^\\s,]+))?",
      "get\\s+logs(\\s+for\\s+(?<bundleId>[^\\s,]+))?",
      "show\\s+logs(\\s+for\\s+(?<bundleId>[^\\s,]+))?",
      "display\\s+logs(\\s+for\\s+(?<bundleId>[^\\s,]+))?"],
    description := "Gets system logs or logs from a specific application",
    requiredParameters := [],
    optionalParameters := ["bundleId", "limit", "sessionId"],
    examples := ["obtener logs", "mostrar logs de com.example.app",
      "get logs for com.apple.mobilesafari", "show logs", "display logs for com.example.app"],
    parameterExtractors := [("bundleId", extTrim "bundleId")] }]

/-- DebugCommands.ts definitions. -/
def debugCommands : List CommandDefinition := [
  { command := "start debug",
    patterns := [
      "iniciar\\s+debug\\s+(?<bundleId>[^\\s,]+)",
      "start\\s+debug\\s+(?<bundleId>[^\\s,]+)",
      "debug\\s+app\\s+(?<bundleId>[^\\s,]+)",
      "begin\\s+debug\\s+(?<bundleId>[^\\s,]+)",
      "launch\\s+debug\\s+(?<bundleId>[^\\s,]+)"],
    description := "Starts a debug session for an application",
    requiredParameters := ["bundleId"],
    optionalParameters := ["sessionId"],
    examples := ["iniciar debug com.example.app", "start debug com.apple.mobilesafari",
      "debug app com.example.app", "begin debug com.example.app",
      "launch debug com.apple.mobilesafari"],
    parameterExtractors := [("bundleId", extTrim "bundleId")] },
  { command := "stop debug",
    patterns := [
      "detener\\s+debug",
      "parar\\s+debug",
      "stop\\s+debug",
      "end\\s+debug",
      "terminate\\s+debug"],
    description := "Stops a debug session",
    requiredParameters := [],
    optionalParameters := ["sessionId"],
    examples := ["detener debug", "parar debug", "stop debug", "end debug", "terminate debug"],
    parameterExtractors := [] },
  { command := "debug status",
    patterns := [
      "estado\\s+debug",
      "status\\s+debug",
      "información\\s+debug",
      "debug\\s+status",
      "get\\s+debug\\s+status"],
    description := "Gets the debug session status",
    requiredParameters := [],
    optionalParameters := ["sessionId"],
    examples := ["estado debug", "status debug", "información debug", "debug status",
      "get debug status"],
    parameterExtractors := [] },
  { command := "list crash logs",
    patterns := [
      "listar\\s+crash\\s+logs",
      "mostrar\\s+crash\\s+logs",
      "list\\s+crash\\s+logs",
      "show\\s+crash\\s+logs",
      "display\\s+crash\\s+logs"],
    description := "Lists available crash logs",
    requiredParameters := [],
    optionalParameters := ["bundleId", "sessionId"],
    examples := ["listar crash logs", "mostrar crash logs", "list crash logs",
      "show crash logs", "display crash logs"],
    parameterExtractors := [] },
  { command := "show crash log",
    patterns := [
      "mostrar\\s+crash\\s+log\\s+(?<crashName>[^\\s,]+)",
      "ver\\s+crash\\s+log\\s+(?<crashName>[^\\s,]+)",
      "show\\s+crash\\s+log\\s+(?<crashName>[^\\s,]+)",
      "display\\s+crash\\s+log\\s+(?<crashName>[^\\s,]+)",
      "view\\s+crash\\s+log\\s+(?<crashName>[^\\s,]+)"],
    description := "Gets the content of a crash log",
    requiredParameters := ["crashName"],
    optionalParameters := ["sessionId"],
    examples := ["mostrar crash log crash_2023-01-01", "ver crash log app_crash_123",
      "show crash log system_crash", "display crash log error_log_123",
      "view crash log app_crash_456"],
    parameterExtractors := [("crashName", extTrim "crashName")] },
  { command := "delete crash logs",
    patterns := [
      "eliminar\\s+crash\\s+logs",
      "borrar\\s+crash\\s+logs",
      "delete\\s+crash\\s+logs",
      "remove\\s+crash\\s+logs",
      "clear\\s+crash\\s+logs"],
    description := "Deletes crash logs",
    requiredParameters := [],
    optionalParameters := ["bundleId", "sessionId", "all"],
    examples := ["eliminar crash logs", "borrar crash logs", "delete crash logs",
      "remove crash logs", "clear crash logs"],
    parameterExtractors := [] }]

/-- MiscCommands.ts definitions. -/
def miscCommands : List CommandDefinition := [
  { command := "install dylib",
    patterns := [
      "instalar\\s+dylib\\s+(?<dylibPath>[^\\s,]+)",
      "install\\s+dylib\\s+(?<dylibPath>[^\\s,]+)",
      "add\\s+dylib\\s+(?<dylibPath>[^\\s,]+)",
      "load\\s+dylib\\s+(?<dylibPath>[^\\s,]+)"],
    description := "Installs a dynamic library (.dylib)",
    requiredParameters := ["dylibPath"],
    optionalParameters := ["sessionId"],
    examples := ["instalar dylib /ruta/a/lib.dylib", "install dylib /tmp/library.dylib",
      "add dylib /path/to/lib.dylib", "load dylib /path/to/library.dylib"],
    parameterExtractors := [("dylibPath", extTrim "dylibPath")] },
  { command := "open url",
    patterns := [
      "abrir\\s+url\\s+(?<url>[^\\s]+)",
      "open\\s+url\\s+(?<url>[^\\s]+)",
      "navegar\\s+a\\s+(?<url>[^\\s]+)",
      "navigate\\s+to\\s+(?<url>[^\\s]+)",
      "browse\\s+to\\s+(?<url>[^\\s]+)"],
    description := "Opens a URL in the simulator",
    requiredParameters := ["url"],
    optionalParameters := ["sessionId"],
    examples := ["abrir url https://example.com", "open url https://google.com",
      "navegar a https://apple.com", "navigate to https://example.com",
      "browse to https://apple.com"],
    parameterExtractors := [("url", extTrim "url")] },
  { command := "clear keychain",
    patterns := [
      "limpiar\\s+keychain",
      "clear\\s+keychain",
      "borrar\\s+keychain",
      "reset\\s+keychain",
      "empty\\s+keychain"],
    description := "Clears the simulator keychain",
    requiredParameters := [],
    optionalParameters := ["sessionId"],
    examples := ["limpiar keychain", "clear keychain", "borrar keychain", "reset keychain",
      "empty keychain"],
    parameterExtractors := [] },
  { command := "set location",
    patterns := [
      "establecer\\s+ubicación\\s+(?<latitude>-?\\d+(\\.\\d+)?)\\s*,\\s*(?<longitude>-?\\d+(\\.\\d+)?)",
      "set\\s+location\\s+(?<latitude>-?\\d+(\\.\\d+)?)\\s*,\\s*(?<longitude>-?\\d+(\\.\\d+)?)",
      "cambiar\\s+ubicación\\s+a\\s+(?<latitude>-?\\d+(\\.\\d+)?)\\s*,\\s*(?<longitude>-?\\d+(\\.\\d+)?)",
      "update\\s+location\\s+(?<latitude>-?\\d+(\\.\\d+)?)\\s*,\\s*(?<longitude>-?\\d+(\\.\\d+)?)",
      "change\\s+location\\s+to\\s+(?<latitude>-?\\d+(\\.\\d+)?)\\s*,\\s*(?<longitude>-?\\d+(\\.\\d+)?)"],
    description := "Sets the simulator location",
    requiredParameters := ["latitude", "longitude"],
    optionalParameters := ["sessionId"],
    examples := ["establecer ubicación 37.7749, -122.4194", "set location 40.7128, -74.0060",
      "cambiar ubicación a 51.5074, -0.1278", "update location 48.8566, 2.3522",
      "change location to 35.6762, 139.6503"],
    parameterExtractors := [("latitude", extFloat "latitude"), ("longitude", extFloat "longitude")] },
  { command := "add media",
    patterns := [
      "añadir\\s+media\\s+(?<mediaPaths>.+)",
      "add\\s+media\\s+(?<mediaPaths>.+)",
      "importar\\s+multimedia\\s+(?<mediaPaths>.+)",
      "import\\s+media\\s+(?<mediaPaths>.+)",
      "upload\\s+media\\s+(?<mediaPaths>.+)"],
    description := "Adds media files to the simulator camera roll",
    requiredParameters := ["mediaPaths"],
    optionalParameters := ["sessionId"],
    examples := ["añadir media /ruta/imagen.jpg /ruta/video.mp4", "add media /tmp/photo.png",
      "importar multimedia /ruta/a/fotos/*.jpg", "import media /path/to/photos/*.jpg",
      "upload media /path/video.mp4"],
    parameterExtractors := [("mediaPaths", extStrList "mediaPaths")] },
  { command := "approve permissions",
    patterns := [
      "aprobar\\s+permisos\\s+(?<bundleId>[^\\s,]+)\\s+(?<permissions>.+)",
      "approve\\s+permissions\\s+(?<bundleId>[^\\s,]+)\\s+(?<permissions>.+)",
      "dar\\s+permisos\\s+a\\s+(?<bundleId>[^\\s,]+)\\s+(?<permissions>.+)",
      "grant\\s+permissions\\s+(?<bundleId>[^\\s,]+)\\s+(?<permissions>.+)",
      "allow\\s+permissions\\s+(?<bundleId>[^\\s,]+)\\s+(?<permissions>.+)"],
    description := "Approves permissions for an application",
    requiredParameters := ["bundleId", "permissions"],
    optionalParameters := ["sessionId"],
    examples := ["aprobar permisos com.example.app photos camera",
      "approve permissions com.apple.mobilesafari contacts",
      "dar permisos a com.example.app photos", "grant permissions com.example.app camera",
      "allow permissions com.example.app location"],
    parameterExtractors := [("bundleId", extTrim "bundleId"),
      ("permissions", extStrList "permissions")] },
  { command := "update contacts",
    patterns := [
      "actualizar\\s+contactos\\s+(?<dbPath>[^\\s,]+)",
      "update\\s+contacts\\s+(?<dbPath>[^\\s,]+)",
      "importar\\s+contactos\\s+(?<dbPath>[^\\s,]+)",
      "import\\s+contacts\\s+(?<dbPath>[^\\s,]+)",
      "load\\s+contacts\\s+(?<dbPath>[^\\s,]+)"],
    description := "Updates the simulator contacts database",
    requiredParameters := ["dbPath"],
    optionalParameters := ["sessionId"],
    examples := ["actualizar contactos /ruta/a/contactos.sqlite", "update contacts /tmp/contacts.db",
      "importar contactos /ruta/contacts.sqlite", "import contacts /path/to/contacts.db",
      "load contacts /path/contacts.sqlite"],
    parameterExtractors := [("dbPath", extTrim "dbPath")] }]

/-!
Registry and parser: src/parser/commands/CommandRegistry.ts and
src/parser/NLParser.ts. The NLParser constructor registers the seven
handlers in the fixed order below.
-/

/-- First pattern of a definition that matches the normalized text
(inner loop of BaseCommandDefinition.parseCommand). -/
def firstPatternMatch (normText : String) : List String → Option Groups
  | [] => none
  | p :: rest =>
      match regexMatch p normText with
      | some g => some g
      | none => firstPatternMatch normText rest

/-- Parameter construction from a successful match: every extractor
that does not return undefined sets its parameter, in extractor order. -/
def extractParams (exts : List (String × (Groups → Option Value))) (g : Groups) :
    List (String × Value) :=
  exts.foldl (fun ps e =>
    match e.2 g with
    | some v => ps ++ [(e.1, v)]
    | none => ps) []

/-- Scan of the definitions of one handler in declaration order
(BaseCommandDefinition.parseCommand). -/
def parseCommandAux (normText origText : String) : List CommandDefinition → Option ParseResult
  | [] => none
  | d :: rest =>
      match firstPatternMatch normText d.patterns with
      | some g =>
          some { command := d.command,
                 parameters := extractParams d.parameterExtractors g,
                 confidence := matchConfidence,
                 originalText := origText }
      | none => parseCommandAux normText origText rest

/-- BaseCommandDefinition.parseCommand: trim and lowercase the text,
then return the first matching definition result. -/
def parseCommand (defs : List CommandDefinition) (text : String) : Option ParseResult :=
  parseCommandAux (strLower (strTrim text)) text defs

/-- The handlers registered by the NLParser constructor, in
registration order. -/
def registryHandlers : List (List CommandDefinition) :=
  [simulatorCommands, appCommands, uiCommands, accessibilityCommands, captureCommands,
   debugCommands, miscCommands]

/-- Scan of the handlers in registration order
(CommandRegistry.parseInstruction). -/
def registryScan (text : String) : List (List CommandDefinition) → Option ParseResult
  | [] => none
  | h :: rest =>
      match parseCommand h text with
      | some r => some r
      | none => registryScan text rest

/-- CommandRegistry.parseInstruction over a given handler list: first
handler with a match wins; no match at all throws. -/
def registryParse (handlers : List (List CommandDefinition)) (text : String) :
    Except String ParseResult :=
  match registryScan text handlers with
  | some r => .ok r
  | none => .error ("Could not understand the instruction: " ++ text)

/-- NLParser.parseInstruction: the registry with the seven registered
handlers. -/
def parseInstruction (text : String) : Except String ParseResult :=
  registryParse registryHandlers text

/-- Supported-command record (CommandRegistry.getSupportedCommands). -/
structure SupportedCommand where
  command : String
  description : String
  requiredParameters : List String
  optionalParameters : List String

/-- CommandRegistry.getSupportedCommands: flatten every registered
definition. -/
def getSupportedCommands : List SupportedCommand :=
  (registryHandlers.flatMap (fun h => h)).map (fun d =>
    { command := d.command, description := d.description,
      requiredParameters := d.requiredParameters,
      optionalParameters := d.optionalParameters })

/-- Validation result (src/parser/interfaces/IParser.ts). -/
structure ValidationResult where
  isValid : Bool
  missingParameters : Option (List String) := none
  invalidParameters : Option (List (String × String)) := none
  suggestions : Option (List String) := none
  errorMessage : Option String := none

/-- Key presence in a parameter mapping (the JavaScript in operator). -/
def hasParam (ps : List (String × Value)) (k : String) : Bool :=
  ps.any (fun kv => kv.1 = k)

/-- First value of a key, undefined when the key is absent (JavaScript
property access). -/
def getParamD (ps : List (String × Value)) (k : String) : Value :=
  match ps.find? (fun kv => kv.1 = k) with
  | some kv => kv.2
  | none => .vUndefined

/-- Null-or-undefined check used by parameter validation. -/
def isNullish : Value → Bool
  | .vUndefined => true
  | .vNull => true
  | _ => false

/-- NLParser.validateInstruction: unknown command name, then missing
required parameters, then null-or-undefined parameter values. -/
def validateInstruction (pr : ParseResult) : ValidationResult :=
  match getSupportedCommands.find? (fun cmd => cmd.command = pr.command) with
  | none =>
      { isValid := false,
        errorMessage := some ("Unrecognized command: " ++ pr.command) }
  | some defn =>
      let missingParameters := defn.requiredParameters.filter
        (fun param => ¬ hasParam pr.parameters param)
      if missingParameters.isEmpty = false then
        { isValid := false,
          missingParameters := some missingParameters,
          errorMessage := some ("Missing required parameters: " ++
            String.intercalate ", " missingParameters) }
      else
        let invalidParameters := (pr.parameters.filter
          (fun kv => isNullish kv.2)).map
          (fun kv => (kv.1, "Value cannot be null or undefined"))
        if invalidParameters.isEmpty = false then
          { isValid := false,
            invalidParameters := some invalidParameters,
            errorMessage := some "Some parameters have invalid values" }
        else { isValid := true }

/-- Numeric-coercion pass of NLParser.normalizeParameters: a string
whose Number image is not NaN becomes that number. -/
def numPass (v : Value) : Value :=
  match v with
  | .vStr s =>
      match strToNum? s with
      | some q => .vNum q
      | none => .vStr s
  | _ => v

/-- Boolean-coercion pass of NLParser.normalizeParameters: a string
whose lowercase form is true or false becomes that boolean. -/
def boolPass (v : Value) : Value :=
  match v with
  | .vStr s =>
      if strLower s = "true" ∨ strLower s = "false" then .vBool (strLower s = "true")
      else .vStr s
  | _ => v

/-- NLParser.normalizeParameters: copy the mapping, run the numeric
pass over every entry, then the boolean pass over every entry, leaving
keys and order unchanged. -/
def normalizeParameters (pr : ParseResult) : ParseResult :=
  let ps1 := pr.parameters.map (fun kv => (kv.1, numPass kv.2))
  let ps2 := ps1.map (fun kv => (kv.1, boolPass kv.2))
  { pr with parameters := ps2 }

example : (registryHandlers.all (fun h => h.all (fun d =>
  d.patterns.all (fun p => (parseRegex p).isSome)))) = true := by decide

example : parseInstruction "launch app com.example.app" =
    .ok { command := "launch app", parameters := [("bundleId", .vStr "com.example.app")],
          confidence := matchConfidence, originalText := "launch app com.example.app" } := rfl

example : parseInstruction "invalid command here" =
    .error "Could not understand the instruction: invalid command here" := rfl

example : parseInstruction "tap at 100, 200" =
    .ok { command := "tap", parameters := [("x", .vNum (ratZ 100)), ("y", .vNum (ratZ 200))],
          confidence := matchConfidence, originalText := "tap at 100, 200" } := rfl

example : parseInstruction "tap en 100, 200" =
    .error "Could not understand the instruction: tap en 100, 200" := rfl

/-!
Command model (src/orchestrator/interfaces/IOrchestratorCommand.ts) and
the orchestrator (src/orchestrator/MCPOrchestrator.ts). Hooks and the
conditional predicate are arbitrary functions returning Except String,
the error being the message of a thrown Error. JavaScript object
identity of commands inside a sequence is modelled through the id
field (the factory generates unique identifiers).
-/

/-- Non-composite command kinds of the CommandType enumeration. -/
inductive CommandType where
  | createSimulatorSession
  | terminateSimulatorSession
  | listAvailableSimulators
  | listBootedSimulators
  | bootSimulator
  | shutdownSimulator
  | installApp
  | launchApp
  | terminateApp
  | tap
  | swipe
  | takeScreenshot
  | getSystemLogs
  | getAppLogs
  | isSimulatorBooted
  | isAppInstalled
deriving DecidableEq

/-- Parameter mapping of a command. -/
abbrev Params := List (String × Value)

/-- Outcome envelope (CommandResult). -/
structure CommandResult where
  success : Bool
  data : Option Value := none
  error : Option String := none
  timestamp : Nat

/-- Context handed to hooks and predicates (CommandContext); the field
vars stands for the source field named variables. -/
structure CommandContext where
  sessionId : Value
  previousResults : List (String × CommandResult) := []
  vars : List (String × Value) := []

/-- Optional hook functions of IOrchestratorCommand. -/
structure Hooks where
  validate : Option (CommandContext → Except String Bool) := none
  transformParameters : Option (CommandContext → Except String Params) := none
  onError : Option (String → CommandContext → Except String CommandResult) := none

/-- Identity and metadata fields of IOrchestratorCommand that execution
never reads (description, timeout, retries are carried but unenforced). -/
structure CmdMeta where
  id : String
  description : Option String := none
  timeout : Option Nat := none
  retries : Option Nat := none

/-- Commands: atomic, sequence (child list and stop-on-error flag kept
as the JavaScript value it is tested for truthiness), conditional
(predicate, true branch, optional false branch). -/
inductive Cmd where
  | atomic : CommandType → Params → CmdMeta → Hooks → Cmd
  | seq : List Cmd → Value → CmdMeta → Cmd
  | cond : (CommandContext → Except String Bool) → Cmd → Option Cmd → CmdMeta → Cmd

/-- Identifier of a command. -/
def Cmd.cid : Cmd → String
  | .atomic _ _ m _ => m.id
  | .seq _ _ m => m.id
  | .cond _ _ _ m => m.id

/-- The external IIDBManager backend: each capability is a fallible
state transformer; an error is a thrown message. Session identifiers
and parameters are passed as the runtime values the adapter hands over. -/
structure Backend (σ : Type) where
  createSimulatorSession : σ → Params → σ × Except String Value
  terminateSimulatorSession : σ → Value → σ × Except String Value
  listAvailableSimulators : σ → σ × Except String Value
  listBootedSimulators : σ → σ × Except String Value
  bootSimulatorByUDID : σ → Value → σ × Except String Value
  shutdownSimulatorByUDID : σ → Value → σ × Except String Value
  shutdownSimulator : σ → Value → σ × Except String Value
  installApp : σ → Value → Value → σ × Except String Value
  launchApp : σ → Value → Value → σ × Except String Value
  terminateApp : σ → Value → Value → σ × Except String Value
  tap : σ → Value → Value → Value → σ × Except String Value
  swipe : σ → Value → Value → Value → Value → Value → Value → σ × Except String Value
  takeScreenshot : σ → Value → Value → σ × Except String Value
  getSystemLogs : σ → Value → Value → σ × Except String Value
  getAppLogs : σ → Value → Value → σ × Except String Value
  isSimulatorBooted : σ → Value → σ × Except String Value
  isAppInstalled : σ → Value → Value → σ × Except String Value

/-- Environment of one run: the backend, the clock value Date.now()
yields, and the identifier uuidv4() yields for a created command. -/
structure Env (σ : Type) where
  backend : Backend σ
  now : Nat
  uuid : String

/-- Events emitted by the orchestrator; commandExecuted carries the
executed command and its result, the session events carry their
payload object. Each emission invokes every registered listener of the
event once, in registration order, listener errors being swallowed, so
the event list is also the per-listener invocation list. -/
inductive OEvent where
  | sessionCreated : Value → OEvent
  | sessionTerminated : Value → OEvent
  | sessionActivated : Value → OEvent
  | sessionDeactivated : OEvent
  | commandExecuted : Cmd → CommandResult → OEvent

/-- Mutable state of an MCPOrchestrator instance. -/
structure OrchSt (σ : Type) where
  backendState : σ
  activeSessionId : Value := .vNull
  commandHistory : List (Cmd × CommandResult × Nat) := []
  events : List OEvent := []

/-- Emit an event (MCPOrchestrator.emit appends one invocation round). -/
def emitEvent (st : OrchSt σ) (e : OEvent) : OrchSt σ :=
  { st with events := st.events ++ [e] }

/-- Generic failure envelope of the catch blocks:
success false and the thrown message, an empty message becoming the
Unknown error text. -/
def errRes (now : Nat) (e : String) : CommandResult :=
  { success := false, error := some (jsOrStr e "Unknown error"), timestamp := now }

/-- Result payload rendered as the runtime value it is in JavaScript. -/
def resultToValue (r : CommandResult) : Value :=
  .vObj [("success", .vBool r.success),
         ("data", r.data.getD .vUndefined),
         ("error", match r.error with | some e => .vStr e | none => .vUndefined),
         ("timestamp", .vNum (ratN r.timestamp))]

/-- Effective session value of the adapter:
command.parameters.sessionId, else the passed session id, else the
empty string. -/
def effSession (ps : Params) (sid : Value) : Value :=
  jsOrV (getParamD ps "sessionId") (jsOrV sid (.vStr ""))

/-- Capability dispatch of OrchestratorToIDB.executeCommand: one switch
case per command kind, building the result payload the adapter builds. -/
def idbDispatch (B : Backend σ) (bst : σ) (ty : CommandType) (ps : Params) (sid : Value) :
    σ × Except String Value :=
  let pSid := getParamD ps "sessionId"
  let sess := effSession ps sid
  match ty with
  | .createSimulatorSession => B.createSimulatorSession bst ps
  | .terminateSimulatorSession =>
      let (b1, r) := B.terminateSimulatorSession bst sess
      (b1, r.map (fun _ => .vObj [("sessionId", jsOrV pSid sid)]))
  | .listAvailableSimulators => B.listAvailableSimulators bst
  | .listBootedSimulators => B.listBootedSimulators bst
  | .bootSimulator =>
      let u := getParamD ps "udid"
      let (b1, r) := B.bootSimulatorByUDID bst u
      (b1, r.map (fun _ => .vObj [("udid", u)]))
  | .shutdownSimulator =>
      let u := getParamD ps "udid"
      if jsTruthy u then
        let (b1, r) := B.shutdownSimulatorByUDID bst u
        (b1, r.map (fun _ => .vObj [("udid", u)]))
      else
        let (b1, r) := B.shutdownSimulator bst sess
        (b1, r.map (fun _ => .vObj [("sessionId", jsOrV pSid sid)]))
  | .installApp => B.installApp bst sess (getParamD ps "appPath")
  | .launchApp =>
      let b := getParamD ps "bundleId"
      let (b1, r) := B.launchApp bst sess b
      (b1, r.map (fun _ => .vObj [("bundleId", b)]))
  | .terminateApp =>
      let b := getParamD ps "bundleId"
      let (b1, r) := B.terminateApp bst sess b
      (b1, r.map (fun _ => .vObj [("bundleId", b)]))
  | .tap =>
      let x := getParamD ps "x"
      let y := getParamD ps "y"
      let (b1, r) := B.tap bst sess x y
      (b1, r.map (fun _ => .vObj [("x", x), ("y", y)]))
  | .swipe =>
      let sx := getParamD ps "startX"
      let sy := getParamD ps "startY"
      let ex := getParamD ps "endX"
      let ey := getParamD ps "endY"
      let (b1, r) := B.swipe bst sess sx sy ex ey (getParamD ps "duration")
      (b1, r.map (fun _ => .vObj [("startX", sx), ("startY", sy), ("endX", ex), ("endY", ey)]))
  | .takeScreenshot => B.takeScreenshot bst sess (getParamD ps "outputPath")
  | .getSystemLogs => B.getSystemLogs bst sess (getParamD ps "options")
  | .getAppLogs => B.getAppLogs bst sess (getParamD ps "bundleId")
  | .isSimulatorBooted => B.isSimulatorBooted bst sess
  | .isAppInstalled => B.isAppInstalled bst sess (getParamD ps "bundleId")

/-- OrchestratorToIDB.executeCommand: run the dispatch, wrap a
successful payload; on a thrown error consult the custom onError
handler (whose own throw is the only way an error leaves the adapter),
otherwise return the generic failure envelope. -/
def adapterExecute (B : Backend σ) (now : Nat) (bst : σ) (ty : CommandType) (ps : Params)
    (hooks : Hooks) (sid : Value) : σ × Except String CommandResult :=
  let (b1, r) := idbDispatch B bst ty ps sid
  match r with
  | .ok v => (b1, .ok { success := true, data := some v, timestamp := now })
  | .error e =>
      match hooks.onError with
      | some h => (b1, h e { sessionId := sid })
      | none => (b1, .ok { success := false,
                           error := some (jsOrStr e "Unknown error"), timestamp := now })

/-- History push followed by the commandExecuted emission, the common
tail of every non-short-circuited executeCommand branch. -/
def pushAndEmit (env : Env σ) (st : OrchSt σ) (c : Cmd) (r : CommandResult) :
    OrchSt σ × CommandResult :=
  (emitEvent { st with commandHistory := st.commandHistory ++ [(c, r, env.now)] }
    (.commandExecuted c r), r)

/-- Atomic branch of MCPOrchestrator.executeCommand after a passed (or
absent) validation hook: transform hook, adapter call, session
bookkeeping, history push and event emission. A thrown transform or a
throwing onError handler is caught by the outer catch, which returns
the failure envelope without touching history or events. -/
def executeAtomicCore (env : Env σ) (st : OrchSt σ) (ty : CommandType) (ps : Params)
    (meta : CmdMeta) (hooks : Hooks) : OrchSt σ × CommandResult :=
  let ctx : CommandContext := { sessionId := jsOrV st.activeSessionId .vUndefined }
  let psRes : Except String Params :=
    match hooks.transformParameters with
    | some t => t ctx
    | none => .ok ps
  match psRes with
  | .error e => (st, errRes env.now e)
  | .ok ps1 =>
      let (b1, ar) := adapterExecute env.backend env.now st.backendState ty ps1 hooks
        (jsOrV st.activeSessionId .vUndefined)
      let st1 := { st with backendState := b1 }
      match ar with
      | .error e => (st1, errRes env.now e)
      | .ok result =>
          let st2 :=
            if ty = .createSimulatorSession ∧ result.success = true ∧
                jsTruthy (result.data.getD .vUndefined) = true then
              let d := result.data.getD .vUndefined
              emitEvent { st1 with activeSessionId := d }
                (.sessionCreated (.vObj [("sessionId", d)]))
            else st1
          let st3 :=
            if ty = .terminateSimulatorSession ∧ result.success = true then
              emitEvent { st2 with activeSessionId := .vNull }
                (.sessionTerminated (.vObj [("sessionId", st2.activeSessionId)]))
            else st2
          pushAndEmit env st3 (.atomic ty ps1 meta hooks) result

/-- Atomic branch of MCPOrchestrator.executeCommand: the validation
hook may short-circuit (returning the failure envelope with no history
entry and no event) or throw (caught by the outer catch, same frame). -/
def executeAtomicFull (env : Env σ) (st : OrchSt σ) (ty : CommandType) (ps : Params)
    (meta : CmdMeta) (hooks : Hooks) : OrchSt σ × CommandResult :=
  let ctx : CommandContext := { sessionId := jsOrV st.activeSessionId .vUndefined }
  match hooks.validate with
  | some v =>
      match v ctx with
      | .error e => (st, errRes env.now e)
      | .ok false =>
          (st, { success := false, error := some "Parameter validation failed",
                 timestamp := env.now })
      | .ok true => executeAtomicCore env st ty ps meta hooks
  | none => executeAtomicCore env st ty ps meta hooks

/-- Aggregate data object of a sequence result. -/
def seqData (results : List CommandResult) (completed total : Nat) : Value :=
  .vObj [("results", .vList (results.map resultToValue)),
         ("completedCommands", .vNum (ratN completed)),
         ("totalCommands", .vNum (ratN total))]

/-- Position of the first command with a given identifier. -/
def indexOfId (cid : String) : List Cmd → Option Nat
  | [] => none
  | c :: rest => if c.cid = cid then some 0 else (indexOfId cid rest).map (fun n => n + 1)

/-- The JavaScript commands.indexOf(command) + 1 of the stop-on-error
branch; object identity is resolved through the id field (the factory
guarantees unique identifiers), and a miss gives the JavaScript -1 + 1. -/
def completedOn (full : List Cmd) (c : Cmd) : Nat :=
  match indexOfId c.cid full with
  | some i => i + 1
  | none => 0

/-- Message of the aggregate stop-on-error failure; a missing child
error renders as the string undefined, as in template interpolation. -/
def seqErrMsg (c : Cmd) (r : CommandResult) : String :=
  "Error in command " ++ c.cid ++ ": " ++ (match r.error with | some e => e | none => "undefined")

mutual

/-- MCPOrchestrator.executeCommand: dispatch on the command kind; the
sequence and conditional branches, and the normal atomic path, push
exactly one history entry and emit commandExecuted once for this
command; the validation-hook short circuit and a caught hook error
return without either. The sequence and conditional branch bodies are
the ones exposed as executeSequenceCommand and
executeConditionalCommand below. -/
def executeCommand (env : Env σ) (st : OrchSt σ) : Cmd → OrchSt σ × CommandResult
  | .atomic ty ps meta hooks => executeAtomicFull env st ty ps meta hooks
  | .seq children stop meta =>
      let out := execSeqLoop env children stop st [] children
      pushAndEmit env out.1 (.seq children stop meta) out.2
  | .cond p t f meta =>
      let ctx : CommandContext := { sessionId := jsOrV st.activeSessionId .vUndefined,
                                    previousResults := [], vars := [] }
      let out : OrchSt σ × CommandResult :=
        match p ctx with
        | .error e => (st, errRes env.now e)
        | .ok true => executeCommand env st t
        | .ok false =>
            match f with
            | some fc => executeCommand env st fc
            | none =>
                (st, { success := true,
                       data := some (.vObj [("conditionResult", .vBool false),
                                            ("executed", .vBool false)]),
                       timestamp := env.now })
      pushAndEmit env out.1 (.cond p t f meta) out.2
termination_by c => sizeOf c

/-- Loop of MCPOrchestrator.executeSequenceCommand: accumulate results
(its context object is written but never read); a failing child with a
truthy stop-on-error flag ends the loop with the partial aggregate
naming the failing child; otherwise the loop runs to the end and
reports success. -/
def execSeqLoop (env : Env σ) (full : List Cmd) (stop : Value) (st : OrchSt σ)
    (acc : List CommandResult) : List Cmd → OrchSt σ × CommandResult
  | [] =>
      (st, { success := true, data := some (seqData acc full.length full.length),
             timestamp := env.now })
  | c :: rest =>
      let out := executeCommand env st c
      let acc1 := acc ++ [out.2]
      if out.2.success = false ∧ jsTruthy stop = true then
        (out.1, { success := false,
                  data := some (seqData acc1 (completedOn full c) full.length),
                  error := some (seqErrMsg c out.2),
                  timestamp := env.now })
      else execSeqLoop env full stop out.1 acc1 rest
termination_by rest => sizeOf rest

end

/-- MCPOrchestrator.executeSequenceCommand, as run by the sequence
branch of executeCommand. -/
def executeSequenceCommand (env : Env σ) (st : OrchSt σ) (children : List Cmd) (stop : Value) :
    OrchSt σ × CommandResult :=
  execSeqLoop env children stop st [] children

/-- MCPOrchestrator.executeConditionalCommand, as run by the
conditional branch of executeCommand: evaluate the predicate once
against the session context; true runs the true branch, false the
false branch when present, and otherwise the synthetic not-executed
success is returned; a thrown predicate is caught here. -/
def executeConditionalCommand (env : Env σ) (st : OrchSt σ)
    (p : CommandContext → Except String Bool) (t : Cmd) (f : Option Cmd) :
    OrchSt σ × CommandResult :=
  let ctx : CommandContext := { sessionId := jsOrV st.activeSessionId .vUndefined,
                                previousResults := [], vars := [] }
  match p ctx with
  | .error e => (st, errRes env.now e)
  | .ok true => executeCommand env st t
  | .ok false =>
      match f with
      | some fc => executeCommand env st fc
      | none =>
          (st, { success := true,
                 data := some (.vObj [("conditionResult", .vBool false),
                                      ("executed", .vBool false)]),
                 timestamp := env.now })

/-- MCPOrchestrator.getCommandHistory: a falsy limit (absent or zero)
returns the whole history as a fresh array, a truthy one the last
limit entries. -/
def getCommandHistory (st : OrchSt σ) (limit : Option Nat) :
    List (Cmd × CommandResult × Nat) :=
  match limit with
  | some l => if l ≠ 0 then st.commandHistory.drop (st.commandHistory.length - l)
              else st.commandHistory
  | none => st.commandHistory

/-- MCPOrchestrator.getActiveSessionId. -/
def getActiveSessionId (st : OrchSt σ) : Value := st.activeSessionId

/-- MCPOrchestrator.setActiveSessionId: store the identifier and emit
the activation or deactivation event. -/
def setActiveSessionId (st : OrchSt σ) (sessionId : Value) : OrchSt σ :=
  let st1 := { st with activeSessionId := sessionId }
  if jsTruthy sessionId then
    emitEvent st1 (.sessionActivated (.vObj [("sessionId", sessionId)]))
  else emitEvent st1 .sessionDeactivated

/-!
Translator: src/adapters/ParserToOrchestrator.ts.
-/

/-- The name-to-kind table of the ParserToOrchestrator constructor, in
insertion order. -/
def commandMappings : List (String × CommandType) := [
  ("crear sesión", .createSimulatorSession),
  ("crear simulador", .createSimulatorSession),
  ("iniciar simulador", .createSimulatorSession),
  ("terminar sesión", .terminateSimulatorSession),
  ("cerrar simulador", .terminateSimulatorSession),
  ("listar simuladores", .listAvailableSimulators),
  ("mostrar simuladores", .listAvailableSimulators),
  ("listar simuladores arrancados", .listBootedSimulators),
  ("arrancar simulador", .bootSimulator),
  ("apagar simulador", .shutdownSimulator),
  ("instalar app", .installApp),
  ("instalar aplicación", .installApp),
  ("lanzar app", .launchApp),
  ("abrir app", .launchApp),
  ("iniciar app", .launchApp),
  ("cerrar app", .terminateApp),
  ("terminar app", .terminateApp),
  ("tap", .tap),
  ("tocar", .tap),
  ("pulsar", .tap),
  ("swipe", .swipe),
  ("deslizar", .swipe),
  ("capturar pantalla", .takeScreenshot),
  ("screenshot", .takeScreenshot),
  ("captura", .takeScreenshot),
  ("logs", .getSystemLogs),
  ("logs del sistema", .getSystemLogs),
  ("logs de app", .getAppLogs),
  ("verificar simulador", .isSimulatorBooted),
  ("comprobar simulador", .isSimulatorBooted),
  ("verificar app", .isAppInstalled),
  ("comprobar app", .isAppInstalled)]

/-- Does the second character list start the first? -/
def startsWithL : List Char → List Char → Bool
  | _, [] => true
  | [], _ :: _ => false
  | a :: s1, b :: s2 => a = b ∧ startsWithL s1 s2

/-- Substring containment of character lists. -/
def includesL : List Char → List Char → Bool
  | s, sub =>
    if startsWithL s sub then true
    else
      match s with
      | [] => false
      | _ :: t => includesL t sub

/-- JavaScript String.prototype.includes. -/
def strIncludes (s sub : String) : Bool := includesL s.toList sub.toList

/-- ParserToOrchestrator.mapToCommandType: exact lowercase table
lookup, then the first table entry whose key the name contains, else a
thrown mapping error. -/
def mapToCommandType (naturalCommand : String) : Except String CommandType :=
  let lowerCommand := strLower naturalCommand
  match commandMappings.find? (fun kv => kv.1 = lowerCommand) with
  | some kv => .ok kv.2
  | none =>
      match commandMappings.find? (fun kv => strIncludes lowerCommand kv.1) with
      | some kv => .ok kv.2
      | none => .error ("Could not map command \"" ++ naturalCommand ++ "\" to a CommandType")

/-- Is a value the undefined value? -/
def isVUndefined : Value → Bool
  | .vUndefined => true
  | _ => false

/-- JavaScript Number(value) coercion on the values the pipeline
carries (array and object coercion is not produced by the catalog and
is rendered as NaN). -/
def jsNumberV (v : Value) : Value :=
  match v with
  | .vNum q => .vNum q
  | .vNaN => .vNaN
  | .vStr s =>
      match strToNum? s with
      | some q => .vNum q
      | none => .vNaN
  | .vBool b => .vNum (if b then ratN 1 else ratN 0)
  | .vNull => .vNum (ratN 0)
  | .vUndefined => .vNaN
  | .vList _ => .vNaN
  | .vObj _ => .vNaN

/-- Assignment parameters.k = Number(parameters.k) guarded by the
defined-ness test of convertParameters. -/
def coerceNum (ps : Params) (k : String) : Params :=
  if isVUndefined (getParamD ps k) then ps
  else ps.map (fun kv => if kv.1 = k then (kv.1, jsNumberV kv.2) else kv)

/-- ParserToOrchestrator.convertParameters: clone, then kind-specific
coercions (tap and swipe coordinates to numbers, the create-session
autoboot string to a boolean); other kinds pass through unchanged. -/
def convertParameters (commandType : CommandType) (parserParameters : Params) : Params :=
  match commandType with
  | .tap => coerceNum (coerceNum parserParameters "x") "y"
  | .swipe =>
      coerceNum (coerceNum (coerceNum (coerceNum (coerceNum parserParameters
        "startX") "startY") "endX") "endY") "duration"
  | .createSimulatorSession =>
      match getParamD parserParameters "autoboot" with
      | .vStr s =>
          parserParameters.map (fun kv =>
            if kv.1 = "autoboot" then (kv.1, .vBool (strLower s = "true")) else kv)
      | _ => parserParameters
  | _ => parserParameters

/-- ParserToOrchestrator.convertToCommand: map the name to a kind,
coerce the parameters and build the command through the factory
(uuidv4 identifier, traceability description, default timeout and
retries). -/
def convertToCommand (uuid : String) (pr : ParseResult) : Except String Cmd :=
  match mapToCommandType pr.command with
  | .error e => .error e
  | .ok commandType =>
      .ok (.atomic commandType (convertParameters commandType pr.parameters)
        { id := uuid,
          description := some ("Command generated from: \"" ++ pr.originalText ++ "\""),
          timeout := some 30000,
          retries := some 1 }
        {})

/-- MCPOrchestrator.processInstruction: parse, validate, normalize,
convert, execute; every thrown error of the chain is caught and turned
into the failure envelope. -/
def processInstruction (env : Env σ) (st : OrchSt σ) (instruction : String) :
    OrchSt σ × CommandResult :=
  match parseInstruction instruction with
  | .error e => (st, errRes env.now e)
  | .ok parseResult =>
      let validationResult := validateInstruction parseResult
      if validationResult.isValid = false then
        (st, { success := false,
               error := some (jsOrSOpt validationResult.errorMessage "Invalid instruction"),
               timestamp := env.now })
      else
        let normalizedResult := normalizeParameters parseResult
        match convertToCommand env.uuid normalizedResult with
        | .error e => (st, errRes env.now e)
        | .ok command => executeCommand env st command

/-!
Allocation-level model of NLParser.normalizeParameters, making the
JavaScript object store explicit: a heap of parameter objects addressed
by index. The function first allocates the spread copy of the input
object, then the two coercion loops assign into that fresh object only.
-/

/-- Heap of parameter objects. -/
abbrev Heap := List Params

/-- Read a heap object (the empty object for a dangling address). -/
def heapGet (h : Heap) (i : Nat) : Params := h.getD i []

/-- Overwrite a heap object. -/
def heapSet (h : Heap) (i : Nat) (m : Params) : Heap := h.set i m

/-- JavaScript property assignment obj[k] = v on an insertion-ordered
object: update the key in place or append it. -/
def assignParam (ps : Params) (k : String) (v : Value) : Params :=
  match ps with
  | [] => [(k, v)]
  | kv :: rest => if kv.1 = k then (k, v) :: rest else kv :: assignParam rest k v

/-- Updated object of one numeric-pass iteration, none when the entry
is left alone. -/
def numUpd (cur : Params) (kv : String × Value) : Option Params :=
  match kv.2 with
  | .vStr s => (strToNum? s).map (fun q => assignParam cur kv.1 (.vNum q))
  | _ => none

/-- Updated object of one boolean-pass iteration. -/
def boolUpd (cur : Params) (kv : String × Value) : Option Params :=
  match kv.2 with
  | .vStr s =>
      if strLower s = "true" ∨ strLower s = "false" then
        some (assignParam cur kv.1 (.vBool (strLower s = "true")))
      else none
  | _ => none

/-- One in-place pass over a snapshot of entries, assigning into the
object at address nref. -/
def passFold (upd : Params → String × Value → Option Params) (nref : Nat) :
    List (String × Value) → Heap → Heap
  | [], h => h
  | kv :: rest, h =>
      passFold upd nref rest
        (match upd (heapGet h nref) kv with
         | some m => heapSet h nref m
         | none => h)

/-- NLParser.normalizeParameters at the allocation level: spread-copy
the parameter object of address r into a fresh object, run the numeric
pass over the entries of the copy, re-read the entries, run the boolean
pass, and return the address of the fresh object. -/
def normalizeParametersAlloc (h : Heap) (r : Nat) : Heap × Nat :=
  let src := heapGet h r
  let nref := h.length
  let h1 := h ++ [src]
  let h2 := passFold numUpd nref src h1
  let h3 := passFold boolUpd nref (heapGet h2 nref) h2
  (h3, nref)

/-- Unfolding equation of the atomic branch of executeCommand. -/
theorem executeCommand_atomic (env : Env σ) (st : OrchSt σ) (ty : CommandType) (ps : Params)
    (meta : CmdMeta) (hooks : Hooks) :
    executeCommand env st (.atomic ty ps meta hooks) = executeAtomicFull env st ty ps meta hooks := by
  simp [executeCommand]

/-- Unfolding equation of the sequence branch of executeCommand. -/
theorem executeCommand_seq (env : Env σ) (st : OrchSt σ) (children : List Cmd) (stop : Value)
    (meta : CmdMeta) :
    executeCommand env st (.seq children stop meta) =
      (let out := executeSequenceCommand env st children stop
       pushAndEmit env out.1 (.seq children stop meta) out.2) := by
  simp [executeCommand, executeSequenceCommand]

/-- Unfolding equation of the conditional branch of executeCommand. -/
theorem executeCommand_cond (env : Env σ) (st : OrchSt σ)
    (p : CommandContext → Except String Bool) (t : Cmd) (f : Option Cmd) (meta : CmdMeta) :
    executeCommand env st (.cond p t f meta) =
      (let out := executeConditionalCommand env st p t f
       pushAndEmit env out.1 (.cond p t f meta) out.2) := by
  rw [executeCommand.eq_def]; rfl

/-- Unfolding equation of the empty sequence loop. -/
theorem execSeqLoop_nil (env : Env σ) (full : List Cmd) (stop : Value) (st : OrchSt σ)
    (acc : List CommandResult) :
    execSeqLoop env full stop st acc [] =
      (st, { success := true, data := some (seqData acc full.length full.length),
             timestamp := env.now }) := by
  simp [execSeqLoop]

/-- Unfolding equation of one sequence-loop step. -/
theorem execSeqLoop_cons (env : Env σ) (full : List Cmd) (stop : Value) (st : OrchSt σ)
    (acc : List CommandResult) (c : Cmd) (rest : List Cmd) :
    execSeqLoop env full stop st acc (c :: rest) =
      (let out := executeCommand env st c
       let acc1 := acc ++ [out.2]
       if out.2.success = false ∧ jsTruthy stop = true then
        (out.1, { success := false,
                  data := some (seqData acc1 (completedOn full c) full.length),
                  error := some (seqErrMsg c out.2),
                  timestamp := env.now })
       else execSeqLoop env full stop out.1 acc1 rest) := by
  simp [execSeqLoop]

/-- Backend stub for concrete runs: the state records each capability
call as a rendered string; listBootedSimulators is the one failing
capability. -/
def tBackend : Backend (List String) where
  createSimulatorSession := fun s _ => (s ++ ["createSimulatorSession"], .ok (.vStr "new-session-123"))
  terminateSimulatorSession := fun s _ => (s ++ ["terminateSimulatorSession"], .ok .vUndefined)
  listAvailableSimulators := fun s => (s ++ ["listAvailableSimulators"], .ok (.vList []))
  listBootedSimulators := fun s => (s ++ ["listBootedSimulators"], .error "boom")
  bootSimulatorByUDID := fun s _ => (s ++ ["bootSimulatorByUDID"], .ok .vUndefined)
  shutdownSimulatorByUDID := fun s _ => (s ++ ["shutdownSimulatorByUDID"], .ok .vUndefined)
  shutdownSimulator := fun s _ => (s ++ ["shutdownSimulator"], .ok .vUndefined)
  installApp := fun s _ _ => (s ++ ["installApp"], .ok .vUndefined)
  launchApp := fun s _ _ => (s ++ ["launchApp"], .ok .vUndefined)
  terminateApp := fun s _ _ => (s ++ ["terminateApp"], .ok .vUndefined)
  tap := fun s _ _ _ => (s ++ ["tap"], .ok .vUndefined)
  swipe := fun s _ _ _ _ _ _ => (s ++ ["swipe"], .ok .vUndefined)
  takeScreenshot := fun s _ _ => (s ++ ["takeScreenshot"], .ok (.vStr "/tmp/shot.png"))
  getSystemLogs := fun s _ _ => (s ++ ["getSystemLogs"], .ok (.vStr "logs"))
  getAppLogs := fun s _ _ => (s ++ ["getAppLogs"], .ok (.vStr "logs"))
  isSimulatorBooted := fun s _ => (s ++ ["isSimulatorBooted"], .ok (.vBool true))
  isAppInstalled := fun s _ _ => (s ++ ["isAppInstalled"], .ok (.vBool true))

/-- Environment of the concrete runs. -/
def tEnv : Env (List String) := { backend := tBackend, now := 7, uuid := "uuid-1" }

/-- Empty starting state of the concrete runs. -/
def tSt : OrchSt (List String) := { backendState := [] }

example :
    (executeCommand tEnv tSt
      (.atomic .listAvailableSimulators [] { id := "c1" } {})).2.success = true := by
  rw [executeCommand_atomic]; rfl

example :
    (executeCommand tEnv tSt
      (.atomic .listAvailableSimulators [] { id := "c1" } {})).1.commandHistory.length = 1 := by
  rw [executeCommand_atomic]; rfl

/-- Both coercion passes leave an already-normalized value unchanged. -/
theorem normVal_fix (v : Value) :
    numPass (boolPass (numPass v)) = boolPass (numPass v) ∧
    boolPass (boolPass (numPass v)) = boolPass (numPass v) := by
  cases v <;> simp [numPass, boolPass]
  case vStr s =>
    cases h : strToNum? s with
    | some q => simp [numPass, boolPass]
    | none =>
      by_cases hb : strLower s = "true" ∨ strLower s = "false"
      · simp [numPass, boolPass, hb]
      · simp [numPass, boolPass, hb, h]

/-- Claim C5: normalizeParameters is idempotent — for every parse
result, applying it twice yields the same parse result (and in
particular the same parameter mapping) as applying it once. -/
theorem c5_normalize_idempotent (pr : ParseResult) :
    normalizeParameters (normalizeParameters pr) = normalizeParameters pr := by
  unfold normalizeParameters
  simp only [List.map_map]
  congr 1
  apply List.map_congr_left
  intro kv _
  simp only [Function.comp]
  exact Prod.ext rfl (by
    have h := normVal_fix kv.2
    simp only [Function.comp]
    calc boolPass (numPass (boolPass (numPass kv.2)))
        = boolPass (boolPass (numPass kv.2)) := by rw [(normVal_fix kv.2).1]
      _ = boolPass (numPass kv.2) := (normVal_fix kv.2).2)

/-- List.set does not change entries at other positions (getD form). -/
theorem getD_set_ne {α : Type} (l : List α) (i j : Nat) (a d : α) (h : i ≠ j) :
    (l.set i a).getD j d = l.getD j d := by
  induction l generalizing i j with
  | nil => simp
  | cons x t ih =>
      cases i with
      | zero =>
          cases j with
          | zero => exact absurd rfl h
          | succ j => simp [List.getD]
      | succ i =>
          cases j with
          | zero => simp [List.getD]
          | succ j => simpa [List.getD] using ih i j (by omega)

/-- A coercion pass writes only to the fresh object address. -/
theorem passFold_frame (upd : Params → String × Value → Option Params) (nref : Nat)
    (entries : List (String × Value)) (h : Heap) (j : Nat) (hj : j ≠ nref) :
    heapGet (passFold upd nref entries h) j = heapGet h j := by
  induction entries generalizing h with
  | nil => rfl
  | cons kv rest ih =>
      cases hu : upd (heapGet h nref) kv with
      | none => simpa [passFold, hu] using ih h
      | some m =>
          have step : passFold upd nref (kv :: rest) h = passFold upd nref rest (heapSet h nref m) := by
            simp [passFold, hu]
          rw [step, ih (heapSet h nref m)]
          exact getD_set_ne h nref j m [] (fun e => hj e.symm)

/-- A coercion pass preserves the heap size. -/
theorem passFold_length (upd : Params → String × Value → Option Params) (nref : Nat)
    (entries : List (String × Value)) (h : Heap) :
    (passFold upd nref entries h).length = h.length := by
  induction entries generalizing h with
  | nil => rfl
  | cons kv rest ih =>
      cases hu : upd (heapGet h nref) kv with
      | none => simpa [passFold, hu] using ih h
      | some m =>
          have step : passFold upd nref (kv :: rest) h = passFold upd nref rest (heapSet h nref m) := by
            simp [passFold, hu]
          rw [step, ih (heapSet h nref m)]
          simp [heapSet]

/-- Claim C10: normalizeParameters never mutates its argument — at the
allocation level, every object existing before the call (the input
parameter mapping of address r in particular) is unchanged afterwards,
and the returned parse result carries a freshly allocated mapping at
the new address, distinct from the input's. -/
theorem c10_normalize_no_mutation (h : Heap) (r : Nat) (hr : r < h.length) :
    (∀ j, j < h.length → heapGet (normalizeParametersAlloc h r).1 j = heapGet h j) ∧
    (normalizeParametersAlloc h r).2 = h.length ∧
    (normalizeParametersAlloc h r).2 ≠ r := by
  have h2 : (normalizeParametersAlloc h r).2 = h.length := rfl
  refine ⟨?_, h2, by rw [h2]; omega⟩
  intro j hj
  have hjne : j ≠ h.length := by omega
  show heapGet (passFold boolUpd h.length _ (passFold numUpd h.length (heapGet h r) (h ++ [heapGet h r]))) j = heapGet h j
  rw [passFold_frame _ _ _ _ _ hjne, passFold_frame _ _ _ _ _ hjne]
  simp [heapGet, List.getElem?_append_left hj]

/-- One history entry of concrete runs. -/
def histEntryA : Cmd × CommandResult × Nat :=
  (.atomic .listAvailableSimulators [] { id := "h1" } {}, { success := true, timestamp := 0 }, 0)

/-- A second history entry of concrete runs. -/
def histEntryB : Cmd × CommandResult × Nat :=
  (.atomic .launchApp [("bundleId", .vStr "com.example.app")] { id := "h2" } {},
   { success := true, timestamp := 1 }, 1)

/-- State with one stored history entry. -/
def stOneEntry : OrchSt Unit := { backendState := (), commandHistory := [histEntryA] }

/-- State with two stored history entries. -/
def stTwoEntries : OrchSt Unit :=
  { backendState := (), commandHistory := [histEntryA, histEntryB] }

/-- Claim C9 counterexample: getCommandHistory 0 does not return the
last zero entries (the empty list) — a zero limit is falsy, so the
whole stored history comes back: on a one-entry history the result has
length one, not zero. -/
theorem c9_counterexample :
    getCommandHistory stOneEntry (some 0) = stOneEntry.commandHistory ∧
    (getCommandHistory stOneEntry (some 0)).length = 1 := ⟨rfl, rfl⟩

/-- Claim C9 (amended): for every positive n, getCommandHistory n
returns exactly the last n entries in stored order (all of them when n
is at least the history length); with no argument, and likewise with
the falsy limit zero, the entire history is returned (the source
builds a fresh array in both cases, so the stored buffer cannot be
mutated through the returned one). -/
theorem c9_history_suffix {σ : Type} (st : OrchSt σ) (l : Nat) :
    (l ≠ 0 →
      getCommandHistory st (some l) =
        st.commandHistory.drop (st.commandHistory.length - l) ∧
      (getCommandHistory st (some l)).length = min l st.commandHistory.length ∧
      st.commandHistory =
        st.commandHistory.take (st.commandHistory.length - l) ++ getCommandHistory st (some l)) ∧
    getCommandHistory st none = st.commandHistory ∧
    getCommandHistory st (some 0) = st.commandHistory := by
  refine ⟨fun hl => ?_, rfl, rfl⟩
  have he : getCommandHistory st (some l) =
      st.commandHistory.drop (st.commandHistory.length - l) := by
    simp [getCommandHistory, hl]
  refine ⟨he, ?_, ?_⟩
  · rw [he, List.length_drop]; omega
  · rw [he, List.take_append_drop]

/-- Claim C9 witness: a positive limit on a two-entry history. -/
theorem c9_witness :
    getCommandHistory stTwoEntries (some 1) =
      stTwoEntries.commandHistory.drop (stTwoEntries.commandHistory.length - 1) :=
  ((c9_history_suffix stTwoEntries 1).1 (by decide)).1

/-- Claim C8: a conditional command whose predicate resolves false and
which has no false branch returns the synthetic result success true
with data conditionResult false, executed false (plus the timestamp),
and executes no child: the state (backend, session, history, events)
is returned untouched. -/
theorem c8_conditional_no_false_branch {σ : Type} (env : Env σ) (st : OrchSt σ)
    (p : CommandContext → Except String Bool) (t : Cmd)
    (hp : p { sessionId := jsOrV st.activeSessionId .vUndefined,
              previousResults := [], vars := [] } = .ok false) :
    executeConditionalCommand env st p t none =
      (st, { success := true,
             data := some (.vObj [("conditionResult", .vBool false),
                                  ("executed", .vBool false)]),
             error := none,
             timestamp := env.now }) := by
  simp [executeConditionalCommand, hp]

/-- Claim C8 witness: a concrete always-false predicate. -/
theorem c8_witness :
    executeConditionalCommand tEnv tSt (fun _ => .ok false)
        (.atomic .tap [] { id := "t1" } {}) none =
      (tSt, { success := true,
              data := some (.vObj [("conditionResult", .vBool false),
                                   ("executed", .vBool false)]),
              error := none,
              timestamp := 7 }) :=
  c8_conditional_no_false_branch tEnv tSt (fun _ => .ok false)
    (.atomic .tap [] { id := "t1" } {}) rfl

/-- Is an event a sessionCreated emission? -/
def isSessionCreatedEv : OEvent → Bool
  | .sessionCreated _ => true
  | _ => false

/-- Number of sessionCreated emissions (equivalently, how often each
registered sessionCreated listener was invoked). -/
def scCount (evs : List OEvent) : Nat := evs.countP (fun e => isSessionCreatedEv e)

/-- Claim C7: a session-creation command whose backend call succeeds
with a truthy identifier leaves that identifier as the active session
id, returns the success envelope carrying it, and emits sessionCreated
with that payload exactly once (before the commandExecuted emission). -/
theorem c7_session_creation {σ : Type} (env : Env σ) (st : OrchSt σ) (ps : Params)
    (meta : CmdMeta) (oe : Option (String → CommandContext → Except String CommandResult))
    (b1 : σ) (v : Value)
    (hb : env.backend.createSimulatorSession st.backendState ps = (b1, .ok v))
    (hv : jsTruthy v = true) :
    getActiveSessionId
      (executeCommand env st (.atomic .createSimulatorSession ps meta { onError := oe })).1 = v ∧
    (executeCommand env st (.atomic .createSimulatorSession ps meta { onError := oe })).2 =
      { success := true, data := some v, error := none, timestamp := env.now } ∧
    (executeCommand env st (.atomic .createSimulatorSession ps meta { onError := oe })).1.events =
      st.events ++ [.sessionCreated (.vObj [("sessionId", v)]),
        .commandExecuted (.atomic .createSimulatorSession ps meta { onError := oe })
          { success := true, data := some v, error := none, timestamp := env.now }] ∧
    scCount (executeCommand env st
        (.atomic .createSimulatorSession ps meta { onError := oe })).1.events =
      scCount st.events + 1 := by
  have key : executeCommand env st (.atomic .createSimulatorSession ps meta { onError := oe }) =
      (emitEvent
        { st with backendState := b1, activeSessionId := v,
                  events := st.events ++ [.sessionCreated (.vObj [("sessionId", v)])],
                  commandHistory := st.commandHistory ++
                    [(.atomic .createSimulatorSession ps meta { onError := oe },
                      { success := true, data := some v, error := none, timestamp := env.now },
                      env.now)] }
        (.commandExecuted (.atomic .createSimulatorSession ps meta { onError := oe })
          { success := true, data := some v, error := none, timestamp := env.now }),
       { success := true, data := some v, error := none, timestamp := env.now }) := by
    rw [executeCommand_atomic]
    unfold executeAtomicFull executeAtomicCore adapterExecute idbDispatch
    simp only [hb, hv]
    simp [pushAndEmit, emitEvent, hv]
  rw [key]
  refine ⟨rfl, rfl, by simp [emitEvent], ?_⟩
  simp [emitEvent, scCount, List.countP_append, isSessionCreatedEv]

/-- Claim C7 witness: the recording backend returns the identifier
new-session-123, which becomes the active session. -/
theorem c7_witness :
    getActiveSessionId
      (executeCommand tEnv tSt (.atomic .createSimulatorSession
        [("udid", .vStr "test-simulator")] { id := "cs" } { onError := none })).1 =
      .vStr "new-session-123" ∧
    scCount (executeCommand tEnv tSt (.atomic .createSimulatorSession
        [("udid", .vStr "test-simulator")] { id := "cs" } { onError := none })).1.events =
      scCount tSt.events + 1 :=
  ⟨(c7_session_creation tEnv tSt [("udid", .vStr "test-simulator")] { id := "cs" } none
      ["createSimulatorSession"] (.vStr "new-session-123") rfl (by decide)).1,
   (c7_session_creation tEnv tSt [("udid", .vStr "test-simulator")] { id := "cs" } none
      ["createSimulatorSession"] (.vStr "new-session-123") rfl (by decide)).2.2.2⟩

/-- Scan helper: the registry scan returns the result of the first
matching handler. -/
theorem registryScan_first (text : String) :
    ∀ (handlers : List (List CommandDefinition)) (i : Nat) (hi : i < handlers.length)
      (r : ParseResult),
      parseCommand handlers[i] text = some r →
      (∀ j (hj : j < i), parseCommand handlers[j] text = none) →
      registryScan text handlers = some r := by
  intro handlers
  induction handlers with
  | nil => intro i hi; exact absurd hi (by simp)
  | cons h hs ih =>
      intro i hi r hm hprev
      cases i with
      | zero => simp only [List.getElem_cons_zero] at hm; simp [registryScan, hm]
      | succ i =>
          have h0 : parseCommand h text = none := by
            have := hprev 0 (Nat.succ_pos i)
            simpa using this
          simp only [registryScan, h0]
          exact ih i (by simpa using hi) r (by simpa using hm)
            (fun j hj => by simpa using hprev (j + 1) (by omega))

/-- Scan helper: the definition scan returns the result built from the
first matching definition. -/
theorem parseCommandAux_first (normText origText : String) :
    ∀ (defs : List CommandDefinition) (i : Nat) (hi : i < defs.length) (g : Groups),
      firstPatternMatch normText defs[i].patterns = some g →
      (∀ j (hj : j < i), firstPatternMatch normText defs[j].patterns = none) →
      parseCommandAux normText origText defs =
        some { command := defs[i].command,
               parameters := extractParams defs[i].parameterExtractors g,
               confidence := matchConfidence, originalText := origText } := by
  intro defs
  induction defs with
  | nil => intro i hi; exact absurd hi (by simp)
  | cons d ds ih =>
      intro i hi g hm hprev
      cases i with
      | zero => simp only [List.getElem_cons_zero] at hm ⊢; simp [parseCommandAux, hm]
      | succ i =>
          have h0 : firstPatternMatch normText d.patterns = none := by
            have := hprev 0 (Nat.succ_pos i)
            simpa using this
          simp only [parseCommandAux, h0, List.getElem_cons_succ]
          exact ih i (by simpa using hi) g (by simpa using hm)
            (fun j hj => by simpa using hprev (j + 1) (by omega))

/-- Scan helper: pattern matching returns the captures of the first
matching pattern. -/
theorem firstPatternMatch_first (normText : String) :
    ∀ (pats : List String) (i : Nat) (hi : i < pats.length) (g : Groups),
      regexMatch pats[i] normText = some g →
      (∀ j (hj : j < i), regexMatch pats[j] normText = none) →
      firstPatternMatch normText pats = some g := by
  intro pats
  induction pats with
  | nil => intro i hi; exact absurd hi (by simp)
  | cons p ps ih =>
      intro i hi g hm hprev
      cases i with
      | zero => simp only [List.getElem_cons_zero] at hm; simp [firstPatternMatch, hm]
      | succ i =>
          have h0 : regexMatch p normText = none := by
            have := hprev 0 (Nat.succ_pos i)
            simpa using this
          simp only [firstPatternMatch, h0]
          exact ih i (by simpa using hi) g (by simpa using hm)
            (fun j hj => by simpa using hprev (j + 1) (by omega))

/-- Claim C6: pattern matching is first-match-wins in registration
order — at every level. Whenever the handler at position i matches a
text and every earlier-registered handler does not, the registry
returns the earlier handler's result (so of two matching definitions of
different handlers, the earlier-registered one wins); within one
handler, the earliest-declared matching definition supplies the result;
within one definition, the earliest-declared matching pattern supplies
the captures. -/
theorem c6_first_match_wins :
    (∀ (handlers : List (List CommandDefinition)) (text : String) (i : Nat)
       (hi : i < handlers.length) (r : ParseResult),
       parseCommand handlers[i] text = some r →
       (∀ j (hj : j < i), parseCommand handlers[j] text = none) →
       registryParse handlers text = .ok r) ∧
    (∀ (defs : List CommandDefinition) (normText origText : String) (i : Nat)
       (hi : i < defs.length) (g : Groups),
       firstPatternMatch normText defs[i].patterns = some g →
       (∀ j (hj : j < i), firstPatternMatch normText defs[j].patterns = none) →
       parseCommandAux normText origText defs =
         some { command := defs[i].command,
                parameters := extractParams defs[i].parameterExtractors g,
                confidence := matchConfidence, originalText := origText }) ∧
    (∀ (pats : List String) (normText : String) (i : Nat) (hi : i < pats.length) (g : Groups),
       regexMatch pats[i] normText = some g →
       (∀ j (hj : j < i), regexMatch pats[j] normText = none) →
       firstPatternMatch normText pats = some g) := by
  refine ⟨?_, ?_, ?_⟩
  · intro handlers text i hi r hm hprev
    have := registryScan_first text handlers i hi r hm hprev
    simp [registryParse, this]
  · intro defs normText origText i hi g hm hprev
    exact parseCommandAux_first normText origText defs i hi g hm hprev
  · intro pats normText i hi g hm hprev
    exact firstPatternMatch_first normText pats i hi g hm hprev

/-- Claim C6 witness: the text matches both the list-simulators
definition (position 2 of the simulator handler) and the later
list-booted-simulators definition (position 3) — two definitions of one
registered handler — and the registry returns the result of the
earlier-declared one. -/
theorem c6_witness :
    (firstPatternMatch (strLower (strTrim "listar simuladores arrancados"))
        (simulatorCommands.get ⟨2, by decide⟩).patterns).isSome = true ∧
    (firstPatternMatch (strLower (strTrim "listar simuladores arrancados"))
        (simulatorCommands.get ⟨3, by decide⟩).patterns).isSome = true ∧
    registryParse registryHandlers "listar simuladores arrancados" =
      .ok { command := "list simulators", parameters := [],
            confidence := matchConfidence,
            originalText := "listar simuladores arrancados" } :=
  ⟨by decide, by decide,
   c6_first_match_wins.1 registryHandlers "listar simuladores arrancados" 0 (by decide)
     { command := "list simulators", parameters := [],
       confidence := matchConfidence,
       originalText := "listar simuladores arrancados" }
     rfl (fun j hj => absurd hj (Nat.not_lt_zero j))⟩

/-- Claim C3: a sequence with a true stop-on-error flag and three
children whose first child succeeds and second child fails returns the
failure aggregate with completedCommands 2 and totalCommands 3 (the
arguments of seqData), and its error message contains the failing
second child's identifier. Distinct identifiers stand in for the
distinct child objects the indexOf reference comparison sees. -/
theorem c3_sequence_stop_on_error {σ : Type} (env : Env σ) (st : OrchSt σ) (c1 c2 c3v : Cmd)
    (hid : c1.cid ≠ c2.cid)
    (h1 : (executeCommand env st c1).2.success = true)
    (h2 : (executeCommand env (executeCommand env st c1).1 c2).2.success = false) :
    executeSequenceCommand env st [c1, c2, c3v] (.vBool true) =
      ((executeCommand env (executeCommand env st c1).1 c2).1,
       { success := false,
         data := some (seqData
           [(executeCommand env st c1).2,
            (executeCommand env (executeCommand env st c1).1 c2).2] 2 3),
         error := some (seqErrMsg c2 (executeCommand env (executeCommand env st c1).1 c2).2),
         timestamp := env.now }) ∧
    (∃ pre post,
      seqErrMsg c2 (executeCommand env (executeCommand env st c1).1 c2).2 =
        pre ++ c2.cid ++ post) := by
  constructor
  · unfold executeSequenceCommand
    rw [execSeqLoop_cons]
    simp only [h1, Bool.true_eq_false, false_and, if_false, List.nil_append]
    rw [execSeqLoop_cons]
    simp only [h2, jsTruthy, and_self, if_true, true_and, if_pos]
    have hco : completedOn [c1, c2, c3v] c2 = 2 := by
      simp [completedOn, indexOfId, hid]
    simp [hco]
  · refine ⟨"Error in command ", ": " ++
      (match (executeCommand env (executeCommand env st c1).1 c2).2.error with
       | some e => e
       | none => "undefined"), ?_⟩
    simp [seqErrMsg, String.append_assoc]

/-- Claim C3 witness: listing available simulators succeeds, listing
booted ones fails with boom, the tap child is never reached. -/
theorem c3_witness :
    executeSequenceCommand tEnv tSt
      [.atomic .listAvailableSimulators [] { id := "c1" } {},
       .atomic .listBootedSimulators [] { id := "c2" } {},
       .atomic .tap [] { id := "c3" } {}] (.vBool true) =
      ((executeCommand tEnv (executeCommand tEnv tSt
          (.atomic .listAvailableSimulators [] { id := "c1" } {})).1
          (.atomic .listBootedSimulators [] { id := "c2" } {})).1,
       { success := false,
         data := some (seqData
           [(executeCommand tEnv tSt (.atomic .listAvailableSimulators [] { id := "c1" } {})).2,
            (executeCommand tEnv (executeCommand tEnv tSt
              (.atomic .listAvailableSimulators [] { id := "c1" } {})).1
              (.atomic .listBootedSimulators [] { id := "c2" } {})).2] 2 3),
         error := some (seqErrMsg (.atomic .listBootedSimulators [] { id := "c2" } {})
           (executeCommand tEnv (executeCommand tEnv tSt
             (.atomic .listAvailableSimulators [] { id := "c1" } {})).1
             (.atomic .listBootedSimulators [] { id := "c2" } {})).2),
         timestamp := 7 }) :=
  (c3_sequence_stop_on_error tEnv tSt
    (.atomic .listAvailableSimulators [] { id := "c1" } {})
    (.atomic .listBootedSimulators [] { id := "c2" } {})
    (.atomic .tap [] { id := "c3" } {})
    (by decide)
    (by simp only [executeCommand_atomic]; rfl)
    (by simp only [executeCommand_atomic]; rfl)).1

/-- Is an event a commandExecuted emission? -/
def isCommandExecutedEv : OEvent → Bool
  | .commandExecuted _ _ => true
  | _ => false

/-- Number of commandExecuted emissions. -/
def ceCount (evs : List OEvent) : Nat := evs.countP (fun e => isCommandExecutedEv e)

/-- Claim C1 counterexample: a command whose validation hook returns
false takes the validation-hook short-circuit branch of executeCommand
and appends no history entry and emits no event at all — the claim that
every branch appends exactly one entry and emits exactly one
commandExecuted is false on this input. -/
theorem c1_counterexample :
    (executeCommand tEnv tSt (.atomic .listAvailableSimulators [] { id := "cv" }
        { validate := some (fun _ => .ok false) })).1.commandHistory = [] ∧
    (executeCommand tEnv tSt (.atomic .listAvailableSimulators [] { id := "cv" }
        { validate := some (fun _ => .ok false) })).1.events = [] ∧
    (executeCommand tEnv tSt (.atomic .listAvailableSimulators [] { id := "cv" }
        { validate := some (fun _ => .ok false) })).2 =
      { success := false, data := none, error := some "Parameter validation failed",
        timestamp := 7 } := by
  refine ⟨?_, ?_, ?_⟩ <;> (simp only [executeCommand_atomic]; rfl)

/-- A command with no hooks. -/
def isPlainAtomic : Cmd → Bool
  | .atomic _ _ _ ⟨none, none, none⟩ => true
  | _ => false

/-- A hook-free atomic command appends exactly one history entry —
its own, carrying its result and the timestamp — and emits exactly one
commandExecuted event, after the branch logic. -/
theorem execAtomic_plain_frame {σ : Type} (env : Env σ) (st : OrchSt σ) (ty : CommandType)
    (ps : Params) (meta : CmdMeta) :
    (executeCommand env st (.atomic ty ps meta {})).1.commandHistory =
      st.commandHistory ++
        [(.atomic ty ps meta {}, (executeCommand env st (.atomic ty ps meta {})).2, env.now)] ∧
    ceCount (executeCommand env st (.atomic ty ps meta {})).1.events = ceCount st.events + 1 := by
  rw [executeCommand_atomic]
  unfold executeAtomicFull executeAtomicCore adapterExecute
  rcases hd : idbDispatch env.backend st.backendState ty ps (jsOrV st.activeSessionId .vUndefined)
    with ⟨b1, r⟩
  cases r with
  | ok v =>
      simp only [hd]
      split_ifs <;>
        simp [pushAndEmit, emitEvent, ceCount, List.countP_append, isCommandExecutedEv]
  | error e =>
      simp only [hd]
      split_ifs <;>
        simp [pushAndEmit, emitEvent, ceCount, List.countP_append, isCommandExecutedEv]

/-- History of the common push-and-emit tail. -/
theorem pushAndEmit_history {σ : Type} (env : Env σ) (st : OrchSt σ) (c : Cmd)
    (r : CommandResult) :
    (pushAndEmit env st c r).1.commandHistory = st.commandHistory ++ [(c, r, env.now)] := rfl

/-- Events of the common push-and-emit tail. -/
theorem pushAndEmit_events {σ : Type} (env : Env σ) (st : OrchSt σ) (c : Cmd)
    (r : CommandResult) :
    (pushAndEmit env st c r).1.events = st.events ++ [.commandExecuted c r] := rfl

/-- A commandExecuted emission raises the count by one. -/
theorem ceCount_append_ce (evs : List OEvent) (c : Cmd) (r : CommandResult) :
    ceCount (evs ++ [.commandExecuted c r]) = ceCount evs + 1 := by
  simp [ceCount, List.countP_append, isCommandExecutedEv]

/-- The sequence loop over hook-free children with a falsy stop flag
appends exactly one entry and one commandExecuted emission per child. -/
theorem execSeqLoop_plain_frame {σ : Type} (env : Env σ) (full : List Cmd) :
    ∀ (rest : List Cmd) (st : OrchSt σ) (acc : List CommandResult),
      rest.all isPlainAtomic = true →
      (execSeqLoop env full (.vBool false) st acc rest).1.commandHistory.length =
        st.commandHistory.length + rest.length ∧
      ceCount (execSeqLoop env full (.vBool false) st acc rest).1.events =
        ceCount st.events + rest.length := by
  intro rest
  induction rest with
  | nil => intro st acc _; rw [execSeqLoop_nil]; simp
  | cons c cs ih =>
      intro st acc hall
      simp only [List.all_cons, Bool.and_eq_true] at hall
      have hc : isPlainAtomic c = true := hall.1
      have hcs : cs.all isPlainAtomic = true := hall.2
      rw [execSeqLoop_cons]
      simp only [jsTruthy, Bool.false_eq_true, and_false, if_false]
      cases c with
      | seq a b d => simp [isPlainAtomic] at hc
      | cond a b d e => simp [isPlainAtomic] at hc
      | atomic ty ps meta hooks =>
          rcases hooks with ⟨hv, ht, ho⟩
          cases hv <;> cases ht <;> cases ho <;> simp [isPlainAtomic] at hc
          have hframe := execAtomic_plain_frame env st ty ps meta
          have hrec := ih (executeCommand env st (.atomic ty ps meta {})).1
            (acc ++ [(executeCommand env st (.atomic ty ps meta {})).2]) hcs
          refine ⟨?_, ?_⟩
          · rw [hrec.1, hframe.1]
            simp only [List.length_append, List.length_cons, List.length_nil]
            omega
          · rw [hrec.2, hframe.2]
            simp only [List.length_cons]
            omega

/-- The transform-then-adapter tail of the atomic path appends exactly
one history entry — the command with its transformed parameters and its
result — and emits exactly one commandExecuted event, whenever the
transform hook (if any) returns parameters and the adapter returns a
result. -/
theorem execAtomicCore_frame {σ : Type} (env : Env σ) (st : OrchSt σ) (ty : CommandType)
    (ps ps1 : Params) (meta : CmdMeta)
    (vOpt : Option (CommandContext → Except String Bool))
    (tOpt : Option (CommandContext → Except String Params))
    (oOpt : Option (String → CommandContext → Except String CommandResult))
    (b1 : σ) (result : CommandResult)
    (htr : match tOpt with
           | none => ps1 = ps
           | some t => t { sessionId := jsOrV st.activeSessionId .vUndefined } = .ok ps1)
    (had : adapterExecute env.backend env.now st.backendState ty ps1 ⟨vOpt, tOpt, oOpt⟩
        (jsOrV st.activeSessionId .vUndefined) = (b1, .ok result)) :
    (executeAtomicCore env st ty ps meta ⟨vOpt, tOpt, oOpt⟩).1.commandHistory =
      st.commandHistory ++ [(.atomic ty ps1 meta ⟨vOpt, tOpt, oOpt⟩, result, env.now)] ∧
    ceCount (executeAtomicCore env st ty ps meta ⟨vOpt, tOpt, oOpt⟩).1.events =
      ceCount st.events + 1 := by
  unfold executeAtomicCore
  cases tOpt with
  | none =>
      have hps : ps1 = ps := htr
      subst hps
      simp only [had]
      split_ifs <;>
        simp [pushAndEmit, emitEvent, ceCount, List.countP_append, isCommandExecutedEv]
  | some t =>
      have ht : t { sessionId := jsOrV st.activeSessionId .vUndefined } = .ok ps1 := htr
      simp only [ht, had]
      split_ifs <;>
        simp [pushAndEmit, emitEvent, ceCount, List.countP_append, isCommandExecutedEv]

/-- An atomic command that reaches the adapter — its validate hook, if
any, returns true; its transform hook, if any, returns parameters; the
adapter returns a result (as it always does unless a custom onError
handler itself throws) — appends exactly one history entry and emits
exactly one commandExecuted event, after the branch logic. -/
theorem execAtomicHooked_frame {σ : Type} (env : Env σ) (st : OrchSt σ) (ty : CommandType)
    (ps ps1 : Params) (meta : CmdMeta)
    (vOpt : Option (CommandContext → Except String Bool))
    (tOpt : Option (CommandContext → Except String Params))
    (oOpt : Option (String → CommandContext → Except String CommandResult))
    (b1 : σ) (result : CommandResult)
    (hv : vOpt = none ∨ ∃ v, vOpt = some v ∧
       v { sessionId := jsOrV st.activeSessionId .vUndefined } = .ok true)
    (htr : match tOpt with
           | none => ps1 = ps
           | some t => t { sessionId := jsOrV st.activeSessionId .vUndefined } = .ok ps1)
    (had : adapterExecute env.backend env.now st.backendState ty ps1 ⟨vOpt, tOpt, oOpt⟩
        (jsOrV st.activeSessionId .vUndefined) = (b1, .ok result)) :
    (executeCommand env st (.atomic ty ps meta ⟨vOpt, tOpt, oOpt⟩)).1.commandHistory =
      st.commandHistory ++ [(.atomic ty ps1 meta ⟨vOpt, tOpt, oOpt⟩, result, env.now)] ∧
    ceCount (executeCommand env st (.atomic ty ps meta ⟨vOpt, tOpt, oOpt⟩)).1.events =
      ceCount st.events + 1 := by
  rw [executeCommand_atomic]
  rcases hv with rfl | ⟨v, rfl, hvok⟩
  · simp only [executeAtomicFull]
    exact execAtomicCore_frame env st ty ps ps1 meta none tOpt oOpt b1 result htr had
  · simp only [executeAtomicFull, hvok]
    exact execAtomicCore_frame env st ty ps ps1 meta (some v) tOpt oOpt b1 result htr had

/-- Claim C1 (amended): every executeCommand call whose branch logic
completes appends exactly one history entry for itself, carrying its
result and the timestamp, and emits exactly one commandExecuted event,
after the branch-specific logic: a hook-free atomic command; an atomic
command that reaches the adapter through a passing (or absent) validate
hook and a returning (or absent) transform hook, its parameters
replaced by the transformed ones; every sequence command, on top of
whatever its children appended through their own recursive calls; and
every conditional command, on top of its branch. Hence a sequence of N
atomic hook-free children that all run appends N + 1 entries and emits
N + 1 events in total. The validation-hook short circuit and the caught
hook error return early and append and emit nothing. -/
theorem c1_history_and_events (σ : Type) (env : Env σ) (st : OrchSt σ) :
    (∀ (ty : CommandType) (ps : Params) (meta : CmdMeta),
      (executeCommand env st (.atomic ty ps meta {})).1.commandHistory =
        st.commandHistory ++
          [(.atomic ty ps meta {}, (executeCommand env st (.atomic ty ps meta {})).2, env.now)] ∧
      ceCount (executeCommand env st (.atomic ty ps meta {})).1.events =
        ceCount st.events + 1) ∧
    (∀ (ty : CommandType) (ps ps1 : Params) (meta : CmdMeta)
       (vOpt : Option (CommandContext → Except String Bool))
       (tOpt : Option (CommandContext → Except String Params))
       (oOpt : Option (String → CommandContext → Except String CommandResult))
       (b1 : σ) (result : CommandResult),
      (vOpt = none ∨ ∃ v, vOpt = some v ∧
        v { sessionId := jsOrV st.activeSessionId .vUndefined } = .ok true) →
      (match tOpt with
       | none => ps1 = ps
       | some t => t { sessionId := jsOrV st.activeSessionId .vUndefined } = .ok ps1) →
      adapterExecute env.backend env.now st.backendState ty ps1 ⟨vOpt, tOpt, oOpt⟩
        (jsOrV st.activeSessionId .vUndefined) = (b1, .ok result) →
      (executeCommand env st (.atomic ty ps meta ⟨vOpt, tOpt, oOpt⟩)).1.commandHistory =
        st.commandHistory ++ [(.atomic ty ps1 meta ⟨vOpt, tOpt, oOpt⟩, result, env.now)] ∧
      ceCount (executeCommand env st (.atomic ty ps meta ⟨vOpt, tOpt, oOpt⟩)).1.events =
        ceCount st.events + 1) ∧
    (∀ (children : List Cmd) (stop : Value) (meta : CmdMeta),
      (executeCommand env st (.seq children stop meta)).1.commandHistory =
        (executeSequenceCommand env st children stop).1.commandHistory ++
          [(.seq children stop meta, (executeSequenceCommand env st children stop).2, env.now)] ∧
      ceCount (executeCommand env st (.seq children stop meta)).1.events =
        ceCount (executeSequenceCommand env st children stop).1.events + 1) ∧
    (∀ (p : CommandContext → Except String Bool) (t : Cmd) (f : Option Cmd) (meta : CmdMeta),
      (executeCommand env st (.cond p t f meta)).1.commandHistory =
        (executeConditionalCommand env st p t f).1.commandHistory ++
          [(.cond p t f meta, (executeConditionalCommand env st p t f).2, env.now)] ∧
      ceCount (executeCommand env st (.cond p t f meta)).1.events =
        ceCount (executeConditionalCommand env st p t f).1.events + 1) ∧
    (∀ (children : List Cmd) (meta : CmdMeta),
      children.all isPlainAtomic = true →
      (executeCommand env st (.seq children (.vBool false) meta)).1.commandHistory.length =
        st.commandHistory.length + children.length + 1 ∧
      ceCount (executeCommand env st (.seq children (.vBool false) meta)).1.events =
        ceCount st.events + children.length + 1) := by
  refine ⟨?_, ?_, ?_, ?_, ?_⟩
  · intro ty ps meta
    exact execAtomic_plain_frame env st ty ps meta
  · intro ty ps ps1 meta vOpt tOpt oOpt b1 result hv htr had
    exact execAtomicHooked_frame env st ty ps ps1 meta vOpt tOpt oOpt b1 result hv htr had
  · intro children stop meta
    rw [executeCommand_seq]
    exact ⟨rfl,
      ceCount_append_ce (executeSequenceCommand env st children stop).1.events
        (.seq children stop meta) (executeSequenceCommand env st children stop).2⟩
  · intro p t f meta
    rw [executeCommand_cond]
    exact ⟨rfl,
      ceCount_append_ce (executeConditionalCommand env st p t f).1.events
        (.cond p t f meta) (executeConditionalCommand env st p t f).2⟩
  · intro children meta hall
    rw [executeCommand_seq]
    have hloop := execSeqLoop_plain_frame env children children st [] hall
    unfold executeSequenceCommand
    refine ⟨?_, ?_⟩
    · rw [pushAndEmit_history]
      simp only [List.length_append, List.length_cons, List.length_nil]
      omega
    · rw [pushAndEmit_events, ceCount_append_ce]
      omega

/-- Claim C1 witness: an atomic command with a passing validate hook
and a transform hook that reaches the adapter appends exactly one
entry with the transformed parameters, and a two-child sequence of
hook-free atomics appends three entries and emits three
commandExecuted events. -/
theorem c1_witness :
    ((executeCommand tEnv tSt (.atomic .takeScreenshot [("outputPath", .vStr "/a.png")]
        { id := "hw" } ⟨some (fun _ => .ok true),
          some (fun _ => .ok [("outputPath", .vStr "/b.png")]), none⟩)).1.commandHistory =
      tSt.commandHistory ++
        [(.atomic .takeScreenshot [("outputPath", .vStr "/b.png")] { id := "hw" }
            ⟨some (fun _ => .ok true),
             some (fun _ => .ok [("outputPath", .vStr "/b.png")]), none⟩,
          { success := true, data := some (.vStr "/tmp/shot.png"), error := none,
            timestamp := 7 }, 7)] ∧
      ceCount (executeCommand tEnv tSt (.atomic .takeScreenshot
          [("outputPath", .vStr "/a.png")] { id := "hw" } ⟨some (fun _ => .ok true),
          some (fun _ => .ok [("outputPath", .vStr "/b.png")]), none⟩)).1.events =
        ceCount tSt.events + 1) ∧
    ((executeCommand tEnv tSt (.seq
        [.atomic .listAvailableSimulators [] { id := "a1" } {},
         .atomic .takeScreenshot [] { id := "a2" } {}] (.vBool false)
        { id := "s1" })).1.commandHistory.length =
      tSt.commandHistory.length +
        [Cmd.atomic .listAvailableSimulators [] { id := "a1" } {},
         Cmd.atomic .takeScreenshot [] { id := "a2" } {}].length + 1 ∧
    ceCount (executeCommand tEnv tSt (.seq
        [.atomic .listAvailableSimulators [] { id := "a1" } {},
         .atomic .takeScreenshot [] { id := "a2" } {}] (.vBool false)
        { id := "s1" })).1.events =
      ceCount tSt.events +
        [Cmd.atomic .listAvailableSimulators [] { id := "a1" } {},
         Cmd.atomic .takeScreenshot [] { id := "a2" } {}].length + 1) :=
  ⟨(c1_history_and_events (List String) tEnv tSt).2.1 .takeScreenshot
     [("outputPath", .vStr "/a.png")] [("outputPath", .vStr "/b.png")] { id := "hw" }
     (some (fun _ => .ok true)) (some (fun _ => .ok [("outputPath", .vStr "/b.png")])) none
     ["takeScreenshot"]
     { success := true, data := some (.vStr "/tmp/shot.png"), error := none, timestamp := 7 }
     (Or.inr ⟨fun _ => .ok true, rfl, rfl⟩) rfl rfl,
   (c1_history_and_events (List String) tEnv tSt).2.2.2.2
     [.atomic .listAvailableSimulators [] { id := "a1" } {},
      .atomic .takeScreenshot [] { id := "a2" } {}] { id := "s1" } (by decide)⟩

/-- Claim C2: the pipeline e2e fact the spec asserts is false on the
code. The instruction tap en 100, 200 — listed among the tap
definition's own example phrasings — matches none of the tap patterns
(they accept tap at, tocar en and pulsar en, but not tap en) nor any
other catalog pattern, so parseInstruction throws, processInstruction
returns the failure envelope, and the recording backend receives no
call at all (in particular no tap invocation). -/
theorem c2_tap_en_never_parses :
    parseInstruction "tap en 100, 200" =
      .error "Could not understand the instruction: tap en 100, 200" ∧
    processInstruction tEnv tSt "tap en 100, 200" =
      (tSt, { success := false, data := none,
              error := some "Could not understand the instruction: tap en 100, 200",
              timestamp := 7 }) ∧
    (processInstruction tEnv tSt "tap en 100, 200").1.backendState = [] ∧
    (uiCommands.get ⟨0, by decide⟩).command = "tap" ∧
    ((uiCommands.get ⟨0, by decide⟩).examples.contains "tap en 100, 200") = true ∧
    firstPatternMatch (strLower (strTrim "tap en 100, 200"))
      (uiCommands.get ⟨0, by decide⟩).patterns = none :=
  ⟨rfl, rfl, rfl, rfl, by decide, rfl⟩

/-- Claim C4 counterexample: the backend capability of this command
throws boom, but its custom onError handler replaces the outcome with a
success envelope — the call resolves with success true and no preserved
message, refuting the claim that every such call yields success false
with the originating message. -/
theorem c4_counterexample :
    (executeCommand tEnv tSt (.atomic .listBootedSimulators [] { id := "ce" }
        { onError := some (fun _ _ => .ok { success := true, data := some (.vStr "recovered"),
                                            timestamp := 0 }) })).2 =
      { success := true, data := some (.vStr "recovered"), error := none, timestamp := 0 } := by
  simp only [executeCommand_atomic]; rfl

/-- Claim C4 (amended): no error propagates as an exception — every
execution function of the embedding is total and returns a command
result — and whenever a hook, predicate, backend capability or the
parse step throws a non-empty message and no custom onError handler
intercepts it, the call resolves to success false with that message
preserved in the error field (an empty thrown message is replaced by
the Unknown error text, and a custom onError result takes precedence). -/
theorem c4_errors_become_failures (σ : Type) (env : Env σ) (st : OrchSt σ) :
    (∀ (ty : CommandType) (ps : Params) (meta : CmdMeta)
       (v : CommandContext → Except String Bool)
       (tr : Option (CommandContext → Except String Params))
       (oe : Option (String → CommandContext → Except String CommandResult)) (m : String),
       v { sessionId := jsOrV st.activeSessionId .vUndefined } = .error m → m ≠ "" →
       executeCommand env st (.atomic ty ps meta
           { validate := some v, transformParameters := tr, onError := oe }) =
         (st, { success := false, data := none, error := some m, timestamp := env.now })) ∧
    (∀ (ty : CommandType) (ps : Params) (meta : CmdMeta)
       (tr : CommandContext → Except String Params)
       (oe : Option (String → CommandContext → Except String CommandResult)) (m : String),
       tr { sessionId := jsOrV st.activeSessionId .vUndefined } = .error m → m ≠ "" →
       executeCommand env st (.atomic ty ps meta
           { transformParameters := some tr, onError := oe }) =
         (st, { success := false, data := none, error := some m, timestamp := env.now })) ∧
    (∀ (p : CommandContext → Except String Bool) (t : Cmd) (f : Option Cmd) (m : String),
       p { sessionId := jsOrV st.activeSessionId .vUndefined,
           previousResults := [], vars := [] } = .error m → m ≠ "" →
       executeConditionalCommand env st p t f =
         (st, { success := false, data := none, error := some m, timestamp := env.now })) ∧
    (∀ (ty : CommandType) (ps : Params) (meta : CmdMeta) (b1 : σ) (m : String),
       idbDispatch env.backend st.backendState ty ps (jsOrV st.activeSessionId .vUndefined) =
         (b1, .error m) → m ≠ "" →
       (executeCommand env st (.atomic ty ps meta {})).2 =
         { success := false, data := none, error := some m, timestamp := env.now }) ∧
    (∀ (text m : String),
       parseInstruction text = .error m → m ≠ "" →
       processInstruction env st text =
         (st, { success := false, data := none, error := some m, timestamp := env.now })) := by
  refine ⟨?_, ?_, ?_, ?_, ?_⟩
  · intro ty ps meta v tr oe m hv hm
    rw [executeCommand_atomic]
    unfold executeAtomicFull
    simp [hv, errRes, jsOrStr, hm]
  · intro ty ps meta tr oe m htr hm
    rw [executeCommand_atomic]
    unfold executeAtomicFull executeAtomicCore
    simp [htr, errRes, jsOrStr, hm]
  · intro p t f m hp hm
    unfold executeConditionalCommand
    simp [hp, errRes, jsOrStr, hm]
  · intro ty ps meta b1 m hd hm
    rw [executeCommand_atomic]
    unfold executeAtomicFull executeAtomicCore adapterExecute
    simp [hd, jsOrStr, hm, pushAndEmit]
  · intro text m hp hm
    unfold processInstruction
    simp [hp, errRes, jsOrStr, hm]

/-- Claim C4 witness: each throwing site at a concrete input — a
throwing validate hook, a throwing transform hook, a throwing
conditional predicate, a throwing backend capability without onError,
and a failing parse. -/
theorem c4_witness :
    executeCommand tEnv tSt (.atomic .tap [] { id := "w1" }
        { validate := some (fun _ => .error "vboom") }) =
      (tSt, { success := false, data := none, error := some "vboom", timestamp := 7 }) ∧
    executeCommand tEnv tSt (.atomic .tap [] { id := "w2" }
        { transformParameters := some (fun _ => .error "tboom") }) =
      (tSt, { success := false, data := none, error := some "tboom", timestamp := 7 }) ∧
    executeConditionalCommand tEnv tSt (fun _ => .error "pboom")
        (.atomic .tap [] { id := "w3" } {}) none =
      (tSt, { success := false, data := none, error := some "pboom", timestamp := 7 }) ∧
    (executeCommand tEnv tSt (.atomic .listBootedSimulators [] { id := "w4" } {})).2 =
      { success := false, data := none, error := some "boom", timestamp := 7 } ∧
    processInstruction tEnv tSt "invalid command here" =
      (tSt, { success := false, data := none,
              error := some "Could not understand the instruction: invalid command here",
              timestamp := 7 }) :=
  ⟨(c4_errors_become_failures (List String) tEnv tSt).1 .tap [] { id := "w1" }
     (fun _ => .error "vboom") none none "vboom" rfl (by decide),
   (c4_errors_become_failures (List String) tEnv tSt).2.1 .tap [] { id := "w2" }
     (fun _ => .error "tboom") none "tboom" rfl (by decide),
   (c4_errors_become_failures (List String) tEnv tSt).2.2.1 (fun _ => .error "pboom")
     (.atomic .tap [] { id := "w3" } {}) none "pboom" rfl (by decide),
   (c4_errors_become_failures (List String) tEnv tSt).2.2.2.1 .listBootedSimulators []
     { id := "w4" } ["listBootedSimulators"] "boom" rfl (by decide),
   (c4_errors_become_failures (List String) tEnv tSt).2.2.2.2 "invalid command here"
     "Could not understand the instruction: invalid command here" rfl (by decide)⟩

/-- Claim C10 witness: a two-object heap whose first object is
normalized; the input object is untouched and the result is fresh. -/
theorem c10_witness :
    heapGet (normalizeParametersAlloc [[("a", .vStr "1")], [("b", .vBool true)]] 0).1 0 =
      heapGet [[("a", .vStr "1")], [("b", .vBool true)]] 0 ∧
    (normalizeParametersAlloc [[("a", .vStr "1")], [("b", .vBool true)]] 0).2 =
      [[("a", Value.vStr "1")], [("b", Value.vBool true)]].length ∧
    (normalizeParametersAlloc [[("a", .vStr "1")], [("b", .vBool true)]] 0).2 ≠ 0 :=
  ⟨(c10_normalize_no_mutation [[("a", .vStr "1")], [("b", .vBool true)]] 0 (by decide)).1 0
     (by decide),
   (c10_normalize_no_mutation [[("a", .vStr "1")], [("b", .vBool true)]] 0 (by decide)).2.1,
   (c10_normalize_no_mutation [[("a", .vStr "1")], [("b", .vBool true)]] 0 (by decide)).2.2⟩
